import Mathlib

/-
  Verification of the Adaptive Study Scheduler and Calendar Synchronization
  Engine of the Task_Scheduling_Agent backend.

  Shallow embedding conventions:
  - Clock times of day ("HH:MM" strings in the source) are modelled as minutes
    since midnight (Nat).  The source compares such strings lexicographically;
    on zero-padded "HH:MM" strings that order coincides with the numeric order
    on minutes, so the embedding is order-faithful.
  - Calendar dates / datetimes are modelled as integer day numbers or integer
    timestamps where only differences and equalities matter.
  - Python floats are modelled as rationals.  Every concrete float computation
    exercised by the claims (score components, duration * 0.8 for the three
    base durations 25, 90, 15) is exact in binary floating point, so the
    rational model agrees with the source on all reachable values.
  - MongoDB collections are modelled as Lean lists threaded through each
    operation as explicit state; find_one is List.find? (first match).
  - Python round(x, 1) (round-half-to-even at one decimal) is modelled by
    roundTo1 below.
-/

namespace Sched

/-- Executable maximum on the rationals (Python max on two numbers). -/
def qmax (a b : ℚ) : ℚ := if a ≤ b then b else a

/-- Executable minimum on the rationals (Python min on two numbers). -/
def qmin (a b : ℚ) : ℚ := if a ≤ b then a else b

/-- Round-half-to-even to an integer, the rounding used by Python round. -/
def roundHalfEven (q : ℚ) : ℤ :=
  let f : ℤ := Rat.floor q
  if q - (f : ℚ) < 1/2 then f
  else if q - (f : ℚ) > 1/2 then f + 1
  else if f % 2 = 0 then f else f + 1

/-- Model of Python round(x, 1): round to one decimal place, half to even. -/
def roundTo1 (q : ℚ) : ℚ := (roundHalfEven (q * 10) : ℚ) / 10

/-- A task as consumed by the scheduling service.  The deadline is an optional
day number; score_tasks only uses the day difference to the target date. -/
structure Task where
  oid : String
  title : String
  deadlineDay : Option ℤ
  priority : String
  complexity_score : ℚ
  estimated_hours : ℚ
  deriving Repr, DecidableEq

/-- get_urgency_label from ai_scheduling_service.py. -/
def get_urgency_label (days_until_deadline : ℤ) : String :=
  if days_until_deadline ≤ 0 then "immediate"
  else if days_until_deadline ≤ 2 then "soon"
  else if days_until_deadline ≤ 7 then "upcoming"
  else "flexible"

/-- The priority component of the score (priority_map with default 12). -/
def priority_score (p : String) : ℚ :=
  if p = "urgent" then 25
  else if p = "high" then 20
  else if p = "medium" then 12
  else if p = "low" then 5
  else 12

/-- The deadline component of the score (0 to 40). -/
def deadline_score (days : ℤ) : ℚ :=
  if days ≤ 0 then 40
  else if days ≤ 1 then 38
  else if days ≤ 2 then 35
  else if days ≤ 3 then 28
  else if days ≤ 7 then 20
  else if days ≤ 14 then 12
  else qmax 5 (10 - ((days : ℚ) - 14))

/-- The complexity-stress component of the score (0 to 20). -/
def complexity_stress_score (complexity stress_level : ℚ) : ℚ :=
  if stress_level ≥ 7 then qmax 0 (20 - complexity * 2)
  else if stress_level ≥ 4 then 10
  else qmin 20 (complexity * 2)

/-- The time-estimate component of the score (0 to 15). -/
def time_score (hours : ℚ) : ℚ := qmax 0 (15 - hours * (3/2))

/-- A task together with its scheduling score, as produced by score_tasks. -/
structure ScoredTask extends Task where
  scheduling_score : ℚ
  deadline_urgency : String
  days_until_deadline : ℤ
  deriving Repr, DecidableEq

/-- Score a single task against a target day at a stress level; the loop body
of score_tasks.  A missing deadline counts as 30 days out. -/
def scoreTask (t : Task) (targetDay : ℤ) (stress_level : ℚ) : ScoredTask :=
  let days : ℤ :=
    match t.deadlineDay with
    | some d => d - targetDay
    | none => 30
  let total := deadline_score days + priority_score t.priority
      + complexity_stress_score t.complexity_score stress_level
      + time_score t.estimated_hours
  { t with
    scheduling_score := roundTo1 total
    deadline_urgency := get_urgency_label days
    days_until_deadline := days }

/-- Insert a scored task into a descending-sorted list, after every earlier
element of greater or equal score (the placement a stable sort gives it). -/
def insertDesc (a : ScoredTask) : List ScoredTask → List ScoredTask
  | [] => [a]
  | b :: t =>
    if b.scheduling_score < a.scheduling_score then a :: b :: t
    else b :: insertDesc a t

/-- Stable descending insertion sort by scheduling_score.  Python sorted with
reverse=True is a stable sort by the same key, and any two stable sorts of the
same list under the same total preorder produce the same output list. -/
def sortByScoreDesc : List ScoredTask → List ScoredTask
  | [] => []
  | a :: t => insertDesc a (sortByScoreDesc t)

/-- score_tasks: score every task and sort descending by score (stable). -/
def score_tasks (tasks : List Task) (targetDay : ℤ) (stress_level : ℚ) :
    List ScoredTask :=
  sortByScoreDesc (tasks.map (fun t => scoreTask t targetDay stress_level))

/-- One blocked-times entry of the preferences (times in minutes of day). -/
structure BlockedTime where
  day : String
  start_time : ℕ
  end_time : ℕ
  deriving Repr, DecidableEq

/-- User scheduling preferences (times in minutes of day). -/
structure Preferences where
  study_start : ℕ := 540
  study_end : ℕ := 1260
  preferred_session_length : ℕ := 25
  break_duration_short : ℕ := 5
  break_duration_long : ℕ := 15
  max_daily_study_hours : ℚ := 8
  blocked_times : List BlockedTime := []
  deriving Repr, DecidableEq

/-- A 30-minute time slot (minutes of day). -/
structure TimeSlot where
  start : ℕ
  «end» : ℕ
  deriving Repr, DecidableEq

/-- Whether a slot starting at a given minute is blocked for a given weekday
name; the inner for-loop of calculate_available_slots. -/
def slotBlocked (blocked : List BlockedTime) (dayName : String)
    (current : ℕ) : Bool :=
  blocked.any (fun b =>
    (b.day = "daily" || b.day = dayName)
    && b.start_time ≤ current && current < b.end_time)

/-- The while-loop of calculate_available_slots: walk from current to endM in
30-minute steps, keeping unblocked slots.  The fuel argument only bounds the
number of iterations so that the recursion is structural; every iteration
advances current by at least one minute, so fuel = endM - current never cuts
the walk short (slotsLoop_fuel_irrelevant below). -/
def slotsLoop (blocked : List BlockedTime) (dayName : String) :
    ℕ → ℕ → ℕ → List TimeSlot
  | 0, _, _ => []
  | fuel + 1, current, endM =>
    if current < endM then
      let slotEnd := min (current + 30) endM
      (if slotBlocked blocked dayName current then []
       else [{ start := current, «end» := slotEnd }])
        ++ slotsLoop blocked dayName fuel slotEnd endM
    else []

/-- calculate_available_slots from ai_scheduling_service.py. -/
def calculate_available_slots (prefs : Preferences) (dayName : String) :
    List TimeSlot :=
  slotsLoop prefs.blocked_times dayName (prefs.study_end - prefs.study_start)
    prefs.study_start prefs.study_end

/-- select_session_type from ai_scheduling_service.py. -/
def select_session_type (complexity estimated_hours stress_level : ℚ)
    (hour : ℕ) : String :=
  if stress_level ≥ 7 then
    (if complexity ≤ 4 then "short_burst" else "pomodoro")
  else if stress_level ≤ 3 && complexity ≥ 7 && 6 ≤ hour && hour ≤ 12 then
    "deep_work"
  else if stress_level ≤ 4 && estimated_hours ≥ 3 then "deep_work"
  else "pomodoro"

/-- base_durations lookup with default 25. -/
def base_durations (session_type : String) : ℕ :=
  if session_type = "pomodoro" then 25
  else if session_type = "deep_work" then 90
  else if session_type = "short_burst" then 15
  else 25

/-- get_session_duration from ai_scheduling_service.py.  int(d * 0.8) is
modelled as the floor of the exact rational product; on the reachable bases
25, 90 and 15 the binary float computation gives the same integer. -/
def get_session_duration (session_type : String) (stress_level : ℚ) : ℕ :=
  let duration := base_durations session_type
  if stress_level ≥ 8 then min duration 20
  else if stress_level ≥ 6 then (Rat.floor ((duration : ℚ) * (4/5))).toNat
  else duration

/-- A study block.  The id models the str(uuid.uuid4()) fresh identifier;
clock times are minutes of day, left unwrapped past midnight. -/
structure StudyBlock where
  id : String
  task_id : String
  task_title : String
  start_time : ℕ
  end_time : ℕ
  duration_minutes : ℕ
  session_type : String
  complexity : ℚ
  priority : String
  deadline_urgency : String
  completed : Bool
  notes : String
  deriving Repr, DecidableEq

/-- A break block between study blocks. -/
structure BreakBlock where
  start_time : ℕ
  end_time : ℕ
  duration_minutes : ℕ
  break_type : String
  deriving Repr, DecidableEq

/-- The schedule dict returned by the generators. -/
structure Schedule where
  study_blocks : List StudyBlock
  break_blocks : List BreakBlock
  total_study_hours : ℚ
  ai_reasoning : String
  deriving Repr, DecidableEq

/-- The mutable loop state of generate_fallback_schedule. -/
structure FBState where
  study_blocks : List StudyBlock
  break_blocks : List BreakBlock
  current_slot_idx : ℕ
  consecutive_blocks : ℕ
  total_minutes : ℕ
  deriving Repr, DecidableEq

/-- Sum of the duration_minutes over a list of study blocks. -/
def sumDurations (bs : List StudyBlock) : ℕ :=
  (bs.map (fun b => b.duration_minutes)).sum

/-- The hour at the cursor slot, read for session selection. -/
def hourAt (time_slots : List TimeSlot) (idx : ℕ) : ℕ :=
  (time_slots.getD idx { start := 0, «end» := 0 }).start / 60

/-- The session type selected for a task at the cursor. -/
def sessionFor (time_slots : List TimeSlot) (stress : ℚ) (task : ScoredTask)
    (idx : ℕ) : String :=
  select_session_type task.complexity_score task.estimated_hours stress
    (hourAt time_slots idx)

/-- The stress-adjusted duration before fitting to the remaining slots. -/
def rawDurationFor (time_slots : List TimeSlot) (stress : ℚ)
    (task : ScoredTask) (idx : ℕ) : ℕ :=
  get_session_duration (sessionFor time_slots stress task idx) stress

/-- Whether the session does not fit into the remaining slots. -/
def overflows (time_slots : List TimeSlot) (stress : ℚ) (task : ScoredTask)
    (idx : ℕ) : Prop :=
  idx + (rawDurationFor time_slots stress task idx + 29) / 30
    > time_slots.length

instance (time_slots : List TimeSlot) (stress : ℚ) (task : ScoredTask)
    (idx : ℕ) : Decidable (overflows time_slots stress task idx) := by
  unfold overflows
  infer_instance

/-- slots_needed after fitting to the remaining slots. -/
def slotsNeededFor (time_slots : List TimeSlot) (stress : ℚ)
    (task : ScoredTask) (idx : ℕ) : ℕ :=
  if overflows time_slots stress task idx then time_slots.length - idx
  else (rawDurationFor time_slots stress task idx + 29) / 30

/-- The block duration after fitting to the remaining slots. -/
def durationFor (time_slots : List TimeSlot) (stress : ℚ) (task : ScoredTask)
    (idx : ℕ) : ℕ :=
  if overflows time_slots stress task idx then (time_slots.length - idx) * 30
  else rawDurationFor time_slots stress task idx

/-- The break insertion before a block when at least one block was already
placed: record a long break every 4th consecutive block (resetting the
counter), else a short one, and advance the cursor past it. -/
def insertBreak (time_slots : List TimeSlot) (prefs : Preferences)
    (s : FBState) : FBState :=
  if s.consecutive_blocks > 0 then
    let break_duration :=
      if s.consecutive_blocks ≥ 4 then prefs.break_duration_long
      else prefs.break_duration_short
    let bstart :=
      (time_slots.getD s.current_slot_idx { start := 0, «end» := 0 }).start
    { s with
      break_blocks := s.break_blocks ++
        [{ start_time := bstart, end_time := bstart + break_duration,
           duration_minutes := break_duration,
           break_type :=
             if s.consecutive_blocks ≥ 4 then "long" else "short" }]
      current_slot_idx := s.current_slot_idx + (break_duration + 29) / 30
      consecutive_blocks :=
        if s.consecutive_blocks ≥ 4 then 0 else s.consecutive_blocks }
  else s

/-- Place one study block at the cursor and advance the state. -/
def placeBlock (time_slots : List TimeSlot) (task : ScoredTask)
    (session_type : String) (duration slots_needed : ℕ) (s : FBState) :
    FBState :=
  let start_time :=
    (time_slots.getD s.current_slot_idx { start := 0, «end» := 0 }).start
  { s with
    study_blocks := s.study_blocks ++
      [{ id := "fb-" ++ toString s.study_blocks.length,
         task_id := task.oid, task_title := task.title,
         start_time := start_time,
         end_time := start_time + duration,
         duration_minutes := duration,
         session_type := session_type,
         complexity := task.complexity_score,
         priority := task.priority,
         deadline_urgency := task.deadline_urgency,
         completed := false, notes := "" }]
    total_minutes := s.total_minutes + duration
    consecutive_blocks := s.consecutive_blocks + 1
    current_slot_idx := s.current_slot_idx + slots_needed }

/-- The for-loop of generate_fallback_schedule, one iteration per scored task.
List indexing uses getD with a dummy slot; every read is guarded by an index
bound check exactly as in the source, so the dummy is never produced. -/
def fallbackLoop (time_slots : List TimeSlot) (prefs : Preferences)
    (stress : ℚ) : List ScoredTask → FBState → FBState
  | [], s => s
  | task :: rest, s =>
    if s.current_slot_idx ≥ time_slots.length
        ∨ (s.total_minutes : ℚ) ≥ prefs.max_daily_study_hours * 60 then s
    else if durationFor time_slots stress task s.current_slot_idx < 15 then
      fallbackLoop time_slots prefs stress rest s
    else
      let sb := insertBreak time_slots prefs s
      if sb.current_slot_idx ≥ time_slots.length then sb
      else
        fallbackLoop time_slots prefs stress rest
          (placeBlock time_slots task
            (sessionFor time_slots stress task s.current_slot_idx)
            (durationFor time_slots stress task s.current_slot_idx)
            (slotsNeededFor time_slots stress task s.current_slot_idx) sb)

/-- generate_fallback_schedule from ai_scheduling_service.py. -/
def generate_fallback_schedule (scored_tasks : List ScoredTask)
    (time_slots : List TimeSlot) (prefs : Preferences) (stress : ℚ) :
    Schedule :=
  let s := fallbackLoop time_slots prefs stress scored_tasks
    { study_blocks := [], break_blocks := [], current_slot_idx := 0,
      consecutive_blocks := 0, total_minutes := 0 }
  { study_blocks := s.study_blocks
    break_blocks := s.break_blocks
    total_study_hours := roundTo1 ((s.total_minutes : ℚ) / 60)
    ai_reasoning := "Schedule generated using priority-based algorithm. "
      ++ toString s.study_blocks.length
      ++ " study blocks created based on deadline urgency and complexity balance." }

/-- Substring test on char lists: the Python in operator on strings. -/
def charsContains (needle : List Char) : List Char → Bool
  | [] => needle.isEmpty
  | c :: rest => needle.isPrefixOf (c :: rest) || charsContains needle rest

/-- needle occurs as a substring of hay (Python needle in hay). -/
def strIn (needle hay : String) : Bool := charsContains needle.data hay.data

/-- The enrichment applied to each AI-produced study block in
generate_study_schedule: assign an id when absent, link the first scored task
whose lowercased title occurs in the lowercased block title, default the
completed flag and notes.  In the model every field is present, so the two
default assignments are the identity. -/
def enrich_block (scored : List ScoredTask) (i : ℕ) (blk : StudyBlock) :
    StudyBlock :=
  let blk := if blk.id = "" then { blk with id := "ai-" ++ toString i } else blk
  match scored.find? (fun t => strIn t.title.toLower blk.task_title.toLower) with
  | some t =>
    { blk with
      task_id := t.oid
      complexity := t.complexity_score
      priority := t.priority
      deadline_urgency := t.deadline_urgency }
  | none => blk

/-- generate_study_schedule from ai_scheduling_service.py.  The database read
of active tasks is the active_tasks argument, stress_data.objective_score is
the stress argument, and the external AI collaborator response, already
json-parsed against the schema, is the ai argument (none models both an AI
failure and an unparseable response). -/
def generate_study_schedule (active_tasks : List Task) (targetDay : ℤ)
    (dayName : String) (prefs : Preferences) (stress : ℚ)
    (ai : Option Schedule) : Schedule :=
  if active_tasks.isEmpty then
    { study_blocks := [], break_blocks := [], total_study_hours := 0,
      ai_reasoning :=
        "No active tasks found. Add some tasks to generate a study schedule." }
  else
    let time_slots := calculate_available_slots prefs dayName
    if time_slots.isEmpty then
      { study_blocks := [], break_blocks := [], total_study_hours := 0,
        ai_reasoning :=
          "No available time slots for the selected date based on your preferences." }
    else
      let scored := score_tasks active_tasks targetDay stress
      match ai with
      | some sch =>
        if sch.study_blocks.isEmpty then
          generate_fallback_schedule scored time_slots prefs stress
        else
          { sch with study_blocks :=
              sch.study_blocks.mapIdx (fun i b => enrich_block scored i b) }
      | none => generate_fallback_schedule scored time_slots prefs stress

end Sched

namespace Planner

/-- A study block as stored inside a study plan document.  duration_minutes is
an integer because add_study_block computes it as end minus start, which the
source does not guard against being negative. -/
structure PBlock where
  id : String
  task_id : String
  task_title : String
  start_time : ℕ
  end_time : ℕ
  duration_minutes : ℤ
  session_type : String
  complexity : ℚ
  priority : String
  deadline_urgency : String
  completed : Bool
  notes : String
  deriving Repr, DecidableEq

/-- One audit entry of the modifications array. -/
structure Modification where
  timestamp : ℕ
  change_type : String
  description : String
  deriving Repr, DecidableEq

/-- A stored study plan document, keyed by (user_id, date). -/
structure PlanDoc where
  user_id : String
  date : String
  study_blocks : List PBlock
  break_blocks : List Sched.BreakBlock
  total_study_hours : ℚ
  ai_reasoning : String
  modifications : List Modification
  deriving Repr, DecidableEq

/-- A task document, reduced to the fields the planner endpoints read. -/
structure TaskDoc where
  oid : String
  title : String
  complexity_score : ℚ
  priority : String
  time_spent_minutes : ℤ
  deriving Repr, DecidableEq

/-- The persistent state the planner endpoints touch: the study_plans and
tasks collections. -/
structure Store where
  plans : List PlanDoc
  tasks : List TaskDoc
  deriving Repr, DecidableEq

/-- An HTTPException raised by an endpoint. -/
structure HErr where
  status : ℕ
  detail : String
  deriving Repr, DecidableEq

/-- The body of StudyBlockUpdate: a partial patch. -/
structure BlockUpdate where
  start_time : Option ℕ := none
  end_time : Option ℕ := none
  completed : Option Bool := none
  notes : Option String := none
  deriving Repr, DecidableEq

/-- The body of StudyBlockCreate. -/
structure BlockCreate where
  task_id : String
  start_time : ℕ
  end_time : ℕ
  session_type : String := "pomodoro"
  deriving Repr, DecidableEq

/-- find_one on study_plans by user_id and date. -/
def findPlan (s : Store) (user date : String) : Option PlanDoc :=
  s.plans.find? (fun p => p.user_id = user && p.date = date)

/-- update_one on study_plans by the id of an already-found plan: replace the
first plan with the same (user_id, date) key. -/
def replacePlan : List PlanDoc → PlanDoc → List PlanDoc
  | [], _ => []
  | q :: t, p =>
    if q.user_id = p.user_id && q.date = p.date then p :: t
    else q :: replacePlan t p

/-- Update the first element satisfying the test; update_one semantics. -/
def updateFirst (p : α → Bool) (f : α → α) : List α → List α
  | [] => []
  | x :: t => if p x then f x :: t else x :: updateFirst p f t

/-- Apply a StudyBlockUpdate patch with exclude_none semantics. -/
def applyUpdate (u : BlockUpdate) (b : PBlock) : PBlock :=
  { b with
    start_time := u.start_time.getD b.start_time
    end_time := u.end_time.getD b.end_time
    completed := u.completed.getD b.completed
    notes := u.notes.getD b.notes }

/-- Patch the first block with the given id, reporting none when absent; the
find-and-update-with-break loop of the block endpoints. -/
def updateFirstBlock (block_id : String) (f : PBlock → PBlock) :
    List PBlock → Option (List PBlock)
  | [] => none
  | b :: t =>
    if b.id = block_id then some (f b :: t)
    else (updateFirstBlock block_id f t).map (fun t2 => b :: t2)

/-- The first block with the given id, as captured by complete_study_block. -/
def findBlock (blocks : List PBlock) (block_id : String) : Option PBlock :=
  blocks.find? (fun b => b.id = block_id)

/-- Sum of duration_minutes over all blocks of a plan. -/
def sumD (bs : List PBlock) : ℤ := (bs.map (fun b => b.duration_minutes)).sum

/-- Sum of duration_minutes over the non-completed blocks only, the quantity
quick_reschedule recomputes total_study_hours from. -/
def sumDPending (bs : List PBlock) : ℤ :=
  ((bs.filter (fun b => !b.completed)).map (fun b => b.duration_minutes)).sum

/-- update_study_block from study_planner.py (PUT blocks endpoint). -/
def update_study_block (user date block_id : String) (u : BlockUpdate)
    (now : ℕ) (s : Store) : Except HErr String × Store :=
  match findPlan s user date with
  | none => (.error { status := 404, detail := "Schedule not found for this date" }, s)
  | some plan =>
    match updateFirstBlock block_id (applyUpdate u) plan.study_blocks with
    | none => (.error { status := 404, detail := "Study block not found" }, s)
    | some blocks2 =>
      let plan2 := { plan with
        study_blocks := blocks2
        modifications := plan.modifications ++
          [{ timestamp := now, change_type := "update",
             description := "Updated block " ++ block_id }] }
      (.ok "Study block updated successfully",
        { s with plans := replacePlan s.plans plan2 })

/-- Increment time_spent_minutes of the first task with the given id; the
try-except around tasks update_one makes a missing or malformed task id a
silent no-op. -/
def incTaskTime (tasks : List TaskDoc) (task_id : String) (minutes : ℤ) :
    List TaskDoc :=
  updateFirst (fun t => t.oid == task_id)
    (fun t => { t with time_spent_minutes := t.time_spent_minutes + minutes })
    tasks

/-- complete_study_block from study_planner.py. -/
def complete_study_block (user date block_id : String) (now : ℕ) (s : Store) :
    Except HErr String × Store :=
  match findPlan s user date with
  | none => (.error { status := 404, detail := "Schedule not found for this date" }, s)
  | some plan =>
    match findBlock plan.study_blocks block_id with
    | none => (.error { status := 404, detail := "Study block not found" }, s)
    | some blk =>
      let blocks2 :=
        updateFirst (fun b => b.id == block_id)
          (fun b => { b with completed := true }) plan.study_blocks
      let tasks2 :=
        if blk.task_id = "" then s.tasks
        else incTaskTime s.tasks blk.task_id blk.duration_minutes
      let plan2 := { plan with
        study_blocks := blocks2
        modifications := plan.modifications ++
          [{ timestamp := now, change_type := "complete",
             description := "Completed block " ++ block_id }] }
      (.ok "Study block completed",
        { s with tasks := tasks2, plans := replacePlan s.plans plan2 })

/-- remove_study_block from study_planner.py. -/
def remove_study_block (user date block_id : String) (now : ℕ) (s : Store) :
    Except HErr String × Store :=
  match findPlan s user date with
  | none => (.error { status := 404, detail := "Schedule not found for this date" }, s)
  | some plan =>
    let blocks2 := plan.study_blocks.filter (fun b => !(b.id == block_id))
    if blocks2.length = plan.study_blocks.length then
      (.error { status := 404, detail := "Study block not found" }, s)
    else
      let plan2 := { plan with
        study_blocks := blocks2
        total_study_hours := Sched.roundTo1 ((sumD blocks2 : ℚ) / 60)
        modifications := plan.modifications ++
          [{ timestamp := now, change_type := "remove",
             description := "Removed block " ++ block_id }] }
      (.ok "Study block removed successfully",
        { s with plans := replacePlan s.plans plan2 })

/-- Stable ascending insertion by start_time; Python list.sort with the
start_time key is a stable sort and computes the same list. -/
def insertAsc (a : PBlock) : List PBlock → List PBlock
  | [] => [a]
  | b :: t =>
    if a.start_time < b.start_time then a :: b :: t else b :: insertAsc a t

/-- Stable sort of the blocks by start_time. -/
def sortByStart : List PBlock → List PBlock
  | [] => []
  | a :: t => insertAsc a (sortByStart t)

/-- add_study_block from study_planner.py.  The fresh uuid of the new block is
modelled by a deterministic fresh string. -/
def add_study_block (user date : String) (blk : BlockCreate) (now : ℕ)
    (s : Store) : Except HErr String × Store :=
  match findPlan s user date with
  | none => (.error { status := 404, detail := "Schedule not found for this date" }, s)
  | some plan =>
    match s.tasks.find? (fun t => t.oid = blk.task_id) with
    | none => (.error { status := 404, detail := "Task not found" }, s)
    | some task =>
      let duration : ℤ := (blk.end_time : ℤ) - (blk.start_time : ℤ)
      let new_block : PBlock := {
        id := "added-" ++ toString plan.study_blocks.length
        task_id := blk.task_id
        task_title := task.title
        start_time := blk.start_time
        end_time := blk.end_time
        duration_minutes := duration
        session_type := blk.session_type
        complexity := task.complexity_score
        priority := task.priority
        deadline_urgency := "flexible"
        completed := false
        notes := "" }
      let blocks2 := sortByStart (plan.study_blocks ++ [new_block])
      let plan2 := { plan with
        study_blocks := blocks2
        total_study_hours := Sched.roundTo1 ((sumD blocks2 : ℚ) / 60)
        modifications := plan.modifications ++
          [{ timestamp := now, change_type := "add",
             description := "Added block for " ++ task.title }] }
      (.ok "Study block added successfully",
        { s with plans := replacePlan s.plans plan2 })

/-- The sequential re-timing loop of the no_time branch: walk the block list
in order and move every pending block of the task to start at the running
latest end; clock arithmetic wraps at midnight like strftime does. -/
def moveLoop (task_id : String) : List PBlock → ℕ → List PBlock × ℕ
  | [], latest => ([], latest)
  | b :: t, latest =>
    if b.task_id = task_id && !b.completed then
      let newEnd := (((latest : ℤ) + b.duration_minutes) % 1440).toNat
      let b2 := { b with start_time := latest, end_time := newEnd }
      let (t2, latest2) := moveLoop task_id t newEnd
      (b2 :: t2, latest2)
    else
      let (t2, latest2) := moveLoop task_id t latest
      (b :: t2, latest2)

/-- The latest end time the no_time branch starts from: 18:00 when the plan
has no blocks at all, otherwise the maximum end_time among the blocks of the
other tasks; none models the ValueError Python max raises on an empty
sequence. -/
def latestEnd (all others : List PBlock) : Option ℕ :=
  if all.isEmpty then some 1080
  else
    match others.map (fun b => b.end_time) with
    | [] => none
    | e :: es => some (es.foldl max e)

/-- The common tail of every quick_reschedule branch that persists: recompute
total_study_hours over the pending blocks, append the audit entry, write. -/
def writeReschedule (s : Store) (plan : PlanDoc) (blocks2 : List PBlock)
    (reason : String) (now : ℕ) : Store :=
  let plan2 := { plan with
    study_blocks := blocks2
    total_study_hours := Sched.roundTo1 ((sumDPending blocks2 : ℚ) / 60)
    modifications := plan.modifications ++
      [{ timestamp := now, change_type := "reschedule",
         description := "Quick reschedule: " ++ reason }] }
  { s with plans := replacePlan s.plans plan2 }

/-- quick_reschedule from study_planner.py.  The reason argument is one of
the four Literal values; FastAPI rejects any other value before the handler
runs, modelled by a 422 error. -/
def quick_reschedule (user task_id reason : String) (now : ℕ) (today : String)
    (s : Store) : Except HErr String × Store :=
  match findPlan s user today with
  | none => (.error { status := 404, detail := "No schedule found for today" }, s)
  | some plan =>
    let affected :=
      plan.study_blocks.filter (fun b => b.task_id == task_id && !b.completed)
    if affected.isEmpty then
      (.ok "No pending blocks found for this task today", s)
    else if reason = "too_stressed" then
      let blocks2 :=
        plan.study_blocks.filter (fun b => !(b.task_id == task_id) || b.completed)
      (.ok "Removed from todays schedule",
        writeReschedule s plan blocks2 reason now)
    else if reason = "no_time" then
      let others :=
        plan.study_blocks.filter (fun b => !(b.task_id == task_id))
      match latestEnd plan.study_blocks others with
      | none => (.error { status := 500, detail := "max() arg is an empty sequence" }, s)
      | some le0 =>
        let blocks2 := (moveLoop task_id plan.study_blocks le0).1
        (.ok "Moved to end of schedule",
          writeReschedule s plan blocks2 reason now)
    else if reason = "priority_change" then
      (.ok "Task priority noted",
        writeReschedule s plan plan.study_blocks reason now)
    else if reason = "completed_early" then
      let blocks2 := plan.study_blocks.map (fun b =>
        if b.task_id == task_id && !b.completed then { b with completed := true }
        else b)
      (.ok "All blocks marked as completed",
        writeReschedule s plan blocks2 reason now)
    else
      (.error { status := 422, detail := "validation error" }, s)

end Planner

namespace Planner

/-- One block-list mutation request against the study planner API. -/
inductive MutOp where
  | update (date block_id : String) (u : BlockUpdate)
  | complete (date block_id : String)
  | remove (date block_id : String)
  | add (date : String) (blk : BlockCreate)
  | reschedule (task_id reason : String)
  deriving Repr, DecidableEq

/-- The plan date a mutation addresses; quick_reschedule always works on
today. -/
def opDate (today : String) : MutOp → String
  | .update d _ _ => d
  | .complete d _ => d
  | .remove d _ => d
  | .add d _ => d
  | .reschedule _ _ => today

/-- Dispatch a mutation to its endpoint. -/
def applyMut (user today : String) (now : ℕ) (op : MutOp) (s : Store) :
    Except HErr String × Store :=
  match op with
  | .update d bid u => update_study_block user d bid u now s
  | .complete d bid => complete_study_block user d bid now s
  | .remove d bid => remove_study_block user d bid now s
  | .add d blk => add_study_block user d blk now s
  | .reschedule tid reason => quick_reschedule user tid reason now today s

/-- The lookup of one of the four block endpoints fails: no plan stored for
the date, or no block with the given id, or (for add) no task with the given
id.  quick_reschedule is not one of the four, so the test is false for it. -/
def lookupFails (user : String) (op : MutOp) (s : Store) : Bool :=
  match op with
  | .update d bid _ =>
    match findPlan s user d with
    | none => true
    | some p => !(p.study_blocks.any (fun b => b.id == bid))
  | .complete d bid =>
    match findPlan s user d with
    | none => true
    | some p => !(p.study_blocks.any (fun b => b.id == bid))
  | .remove d bid =>
    match findPlan s user d with
    | none => true
    | some p => !(p.study_blocks.any (fun b => b.id == bid))
  | .add d blk =>
    match findPlan s user d with
    | none => true
    | some _ => (s.tasks.find? (fun t => t.oid = blk.task_id)).isNone
  | .reschedule _ _ => false

end Planner

namespace Cal

/-- A Google Calendar event, reduced to the fields the engine reads and
writes.  start and finish are abstract instants; for study-block events only
the minutes-of-day component is observable (the HH:MM part of the dateTime),
for task events the instant is the task deadline. -/
structure GEvent where
  summary : String
  description : String
  start : ℚ
  finish : ℚ
  colorId : String
  deriving Repr, DecidableEq

/-- A task document as read by the calendar engine. -/
structure CTask where
  oid : String
  title : String
  description : String
  deadline : Option ℚ
  priority : String
  status : String
  estimated_hours : ℚ
  complexity_score : ℚ
  deriving Repr, DecidableEq

/-- An EventMapping document. -/
structure Mapping where
  mid : ℕ
  user_id : String
  local_entity_type : String
  local_entity_id : String
  google_event_id : ℕ
  google_calendar_id : String
  last_synced_at : ℕ
  last_modified_local : ℕ
  last_modified_google : ℕ
  sync_status : String
  version_hash : String
  deriving Repr, DecidableEq

/-- A CalendarSyncConfig document.  client_ok models that the stored
credentials decrypt and refresh into a usable API client; false makes
get_calendar_client fail. -/
structure SyncConfig where
  user_id : String
  google_calendar_id : String
  sync_enabled : Bool
  client_ok : Bool
  deriving Repr, DecidableEq

/-- The remote Google Calendar: an event store with server-assigned ids. -/
structure Remote where
  events : List (ℕ × GEvent)
  nextId : ℕ
  deriving Repr, DecidableEq

/-- events().get: look up an event by id. -/
def Remote.read (r : Remote) (id : ℕ) : Option GEvent :=
  (r.events.find? (fun p => p.1 == id)).map (fun p => p.2)

/-- events().insert: the server stores the event under a fresh id. -/
def Remote.insert (r : Remote) (ev : GEvent) : ℕ × Remote :=
  (r.nextId, { events := r.events ++ [(r.nextId, ev)], nextId := r.nextId + 1 })

/-- events().update: replace the event; none models the HttpError raised when
the event does not exist. -/
def Remote.update (r : Remote) (id : ℕ) (ev : GEvent) : Option Remote :=
  if r.events.any (fun p => p.1 == id) then
    some { r with events :=
      Planner.updateFirst (fun p => p.1 == id) (fun p => (p.1, ev)) r.events }
  else none

/-- events().delete: remove the event; none models the HttpError raised when
the event is already absent. -/
def Remote.erase (r : Remote) (id : ℕ) : Option Remote :=
  if r.events.any (fun p => p.1 == id) then
    some { r with events := r.events.filter (fun p => !(p.1 == id)) }
  else none

/-- Well-formedness of the remote store: ids are server-assigned, so they are
pairwise distinct and below the next fresh id. -/
def Remote.WF (r : Remote) : Bool :=
  (r.events.map (fun p => p.1)).Nodup ∧ r.events.all (fun p => p.1 < r.nextId)

/-- The full persistent state the sync engine touches. -/
structure CalState where
  remote : Remote
  mappings : List Mapping
  nextMid : ℕ
  tasks : List CTask
  syncConfigs : List SyncConfig
  plans : List Planner.PlanDoc
  deriving Repr, DecidableEq

/-- find_one on calendar_sync by user. -/
def findSyncDoc (s : CalState) (user : String) : Option SyncConfig :=
  s.syncConfigs.find? (fun c => c.user_id = user)

/-- is_sync_enabled from google_calendar_service.py. -/
def is_sync_enabled (s : CalState) (user : String) : Bool :=
  match findSyncDoc s user with
  | some d => d.sync_enabled
  | none => false

/-- get_calendar_client: some () when a sync config exists and its credentials
produce a working client, none otherwise. -/
def get_calendar_client (s : CalState) (user : String) : Option Unit :=
  match findSyncDoc s user with
  | some d => if d.client_ok then some () else none
  | none => none

/-- The google_calendar_id of the user sync config ("primary" default). -/
def calendarIdOf (s : CalState) (user : String) : String :=
  match findSyncDoc s user with
  | some d => d.google_calendar_id
  | none => "primary"

/-- get_priority_color from google_calendar_service.py. -/
def get_priority_color (priority : String) : String :=
  if priority = "low" then "2"
  else if priority = "medium" then "5"
  else if priority = "high" then "6"
  else if priority = "urgent" then "11"
  else "5"

/-- get_session_color from google_calendar_service.py. -/
def get_session_color (session_type : String) : String :=
  if session_type = "pomodoro" then "11"
  else if session_type = "deep_work" then "9"
  else if session_type = "short_burst" then "10"
  else "9"

/-- get_session_emoji from google_calendar_service.py. -/
def get_session_emoji (session_type : String) : String :=
  if session_type = "pomodoro" then "🍅"
  else if session_type = "deep_work" then "🧠"
  else if session_type = "short_burst" then "⚡"
  else "📚"

/-- calculate_version_hash on a task: an injective stand-in for the MD5 of
the canonical JSON of the key fields (hash collisions are not modelled). -/
def versionHashTask (t : CTask) : String :=
  "vh|" ++ t.title ++ "|" ++ toString (repr t.deadline) ++ "|" ++ t.priority
    ++ "|" ++ t.status

/-- task_to_calendar_event: none models the TypeError raised on a task with
no deadline (None + timedelta), which the callers catch as a failed sync. -/
def task_to_calendar_event (t : CTask) : Option GEvent :=
  t.deadline.map (fun dl =>
    { summary := t.title
      description := t.description ++ "\n\n[Task ID: " ++ t.oid ++ "]"
      start := dl
      finish := dl + t.estimated_hours * 60
      colorId := get_priority_color t.priority })

/-- study_block_to_calendar_event: the block carries its own title and times;
priority and complexity are refreshed from the linked task when it exists. -/
def study_block_to_calendar_event (s : CalState) (b : Planner.PBlock) :
    GEvent :=
  let priority :=
    if b.task_id = "" then "medium"
    else
      match s.tasks.find? (fun t => t.oid = b.task_id) with
      | some t => t.priority
      | none => "medium"
  { summary := get_session_emoji b.session_type ++ " " ++ b.task_title
    description := "Study Session Type: " ++ b.session_type
      ++ " Priority: " ++ priority
    start := (b.start_time : ℚ)
    finish := (b.end_time : ℚ)
    colorId := get_session_color b.session_type }

/-- The result dict of the sync operations. -/
structure SyncRes where
  success : Bool
  message : String
  event_id : Option ℕ
  deriving Repr, DecidableEq

/-- The key of the EventMapping a task sync looks up. -/
def taskMappingKey (user task_id : String) (m : Mapping) : Bool :=
  m.user_id == user && m.local_entity_id == task_id
    && m.local_entity_type == "task"

/-- sync_task_to_calendar from google_calendar_service.py. -/
def sync_task_to_calendar (task_id user : String) (now : ℕ) (s : CalState) :
    SyncRes × CalState :=
  if !(is_sync_enabled s user) then
    ({ success := false, message := "Calendar sync not enabled",
       event_id := none }, s)
  else
    match get_calendar_client s user with
    | none =>
      ({ success := false, message := "Failed to get calendar client",
         event_id := none }, s)
    | some _ =>
      match s.tasks.find? (fun t => t.oid = task_id) with
      | none =>
        ({ success := false, message := "Task not found", event_id := none }, s)
      | some task =>
        let existing := s.mappings.find? (taskMappingKey user task_id)
        match task_to_calendar_event task with
        | none =>
          ({ success := false, message := "unsupported operand type",
             event_id := none }, s)
        | some body =>
          let calendar_id := calendarIdOf s user
          match existing with
          | some m =>
            match s.remote.update m.google_event_id body with
            | none =>
              ({ success := false, message := "Calendar API error",
                 event_id := none }, s)
            | some remote2 =>
              let mappings2 :=
                Planner.updateFirst (fun m2 => m2.mid == m.mid)
                  (fun m2 => { m2 with
                    last_synced_at := now
                    last_modified_local := now
                    sync_status := "synced"
                    version_hash := versionHashTask task }) s.mappings
              ({ success := true, message := "Task synced to calendar",
                 event_id := some m.google_event_id },
               { s with remote := remote2, mappings := mappings2 })
          | none =>
            let (eid, remote2) := s.remote.insert body
            let mapping : Mapping := {
              mid := s.nextMid
              user_id := user
              local_entity_type := "task"
              local_entity_id := task_id
              google_event_id := eid
              google_calendar_id := calendar_id
              last_synced_at := now
              last_modified_local := now
              last_modified_google := now
              sync_status := "synced"
              version_hash := versionHashTask task }
            ({ success := true, message := "Task synced to calendar",
               event_id := some eid },
             { s with
               remote := remote2
               mappings := s.mappings ++ [mapping]
               nextMid := s.nextMid + 1 })

/-- sync_study_block_to_calendar from google_calendar_service.py. -/
def sync_study_block_to_calendar (b : Planner.PBlock) (user : String)
    (now : ℕ) (s : CalState) : SyncRes × CalState :=
  if !(is_sync_enabled s user) then
    ({ success := false, message := "Calendar sync not enabled",
       event_id := none }, s)
  else
    match get_calendar_client s user with
    | none =>
      ({ success := false, message := "Failed to get calendar client",
         event_id := none }, s)
    | some _ =>
      let existing := s.mappings.find? (fun m =>
        m.user_id == user && m.local_entity_id == b.id
          && m.local_entity_type == "study_block")
      let body := study_block_to_calendar_event s b
      let calendar_id := calendarIdOf s user
      match existing with
      | some m =>
        match s.remote.update m.google_event_id body with
        | none =>
          ({ success := false, message := "Calendar API error",
             event_id := none }, s)
        | some remote2 =>
          let mappings2 :=
            Planner.updateFirst (fun m2 => m2.mid == m.mid)
              (fun m2 => { m2 with
                last_synced_at := now
                last_modified_local := now
                sync_status := "synced" }) s.mappings
          ({ success := true, message := "synced",
             event_id := some m.google_event_id },
           { s with remote := remote2, mappings := mappings2 })
      | none =>
        let (eid, remote2) := s.remote.insert body
        let mapping : Mapping := {
          mid := s.nextMid
          user_id := user
          local_entity_type := "study_block"
          local_entity_id := b.id
          google_event_id := eid
          google_calendar_id := calendar_id
          last_synced_at := now
          last_modified_local := now
          last_modified_google := now
          sync_status := "synced"
          version_hash := "" }
        ({ success := true, message := "synced", event_id := some eid },
         { s with
           remote := remote2
           mappings := s.mappings ++ [mapping]
           nextMid := s.nextMid + 1 })

/-- Remove the first mapping matching the test; delete_one semantics. -/
def deleteFirst (p : α → Bool) : List α → List α
  | [] => []
  | x :: t => if p x then t else x :: deleteFirst p t

/-- delete_calendar_event from google_calendar_service.py.  Any exception,
including the HttpError for an already-absent remote event, is caught and
reported as False, with the mapping left in place. -/
def delete_calendar_event (google_event_id : ℕ) (user : String)
    (s : CalState) : Bool × CalState :=
  match get_calendar_client s user with
  | none => (false, s)
  | some _ =>
    match s.remote.erase google_event_id with
    | none => (false, s)
    | some remote2 =>
      (true,
       { s with
         remote := remote2
         mappings := deleteFirst (fun m =>
           m.user_id == user && m.google_event_id == google_event_id)
           s.mappings })

end Cal

namespace Cal

/-- Strip the session emoji prefixes from an imported event summary, as the
use_google study-block resolution does. -/
def stripEmoji (summary : String) : String :=
  ((summary.replace "🍅 " "").replace "🧠 " "").replace "⚡ " ""

/-- resolve_sync_conflict from routers/calendar.py.  The ok payload carries
the response message; ok none models the implicit None return of the handler
when a use_local re-push fails.  Instants written back into a study block are
reduced to minutes of day, as strftime %H:%M does. -/
def resolve_sync_conflict (mapping_id : ℕ) (resolution user : String)
    (now : ℕ) (s : CalState) : Except Planner.HErr (Option String) × CalState :=
  match s.mappings.find? (fun m => m.mid == mapping_id && m.user_id == user) with
  | none => (.error { status := 404, detail := "Conflict not found" }, s)
  | some mapping =>
    if resolution = "use_local" then
      if mapping.local_entity_type = "task" then
        let rs := sync_task_to_calendar mapping.local_entity_id user now s
        if rs.1.success then
          let mappings2 :=
            Planner.updateFirst (fun m2 => m2.mid == mapping_id)
              (fun m2 => { m2 with
                sync_status := "synced"
                last_synced_at := now
                last_modified_local := now }) rs.2.mappings
          (.ok (some "Conflict resolved using local version"),
           { rs.2 with mappings := mappings2 })
        else (.ok none, rs.2)
      else
        match s.plans.find? (fun p => p.user_id == user
            && p.study_blocks.any (fun b => b.id == mapping.local_entity_id)) with
        | none =>
          (.error { status := 404, detail := "Study plan not found for this block" }, s)
        | some plan =>
          match plan.study_blocks.find?
              (fun b => b.id == mapping.local_entity_id) with
          | none => (.error { status := 404, detail := "Study block not found" }, s)
          | some block =>
            let rs := sync_study_block_to_calendar block user now s
            if rs.1.success then
              let mappings2 :=
                Planner.updateFirst (fun m2 => m2.mid == mapping_id)
                  (fun m2 => { m2 with
                    sync_status := "synced"
                    last_synced_at := now
                    last_modified_local := now }) rs.2.mappings
              (.ok (some "Conflict resolved using local version"),
               { rs.2 with mappings := mappings2 })
            else (.ok none, rs.2)
    else if resolution = "use_google" then
      match get_calendar_client s user with
      | none => (.error { status := 500, detail := "Failed to get calendar client" }, s)
      | some _ =>
        match s.remote.read mapping.google_event_id with
        | none => (.error { status := 500, detail := "Error resolving conflict" }, s)
        | some event =>
          let tasks1 :=
            Planner.updateFirst (fun t => t.oid == mapping.local_entity_id)
              (fun t => { t with
                title := event.summary
                deadline := some event.start }) s.tasks
          let plans1 :=
            Planner.updateFirst (fun p => p.user_id == user
                && p.study_blocks.any (fun b => b.id == mapping.local_entity_id))
              (fun p =>
                let blocks2 :=
                  Planner.updateFirst (fun b => b.id == mapping.local_entity_id)
                    (fun b => { b with
                      start_time := (Rat.floor event.start).toNat % 1440
                      end_time := (Rat.floor event.finish).toNat % 1440
                      task_title := stripEmoji event.summary })
                    p.study_blocks
                { p with study_blocks := blocks2 }) s.plans
          let s1 :=
            if mapping.local_entity_type = "task" then
              { s with tasks := tasks1 }
            else
              { s with plans := plans1 }
          let mappings2 :=
            Planner.updateFirst (fun m2 => m2.mid == mapping_id)
              (fun m2 => { m2 with
                sync_status := "synced"
                last_synced_at := now
                last_modified_google := now }) s1.mappings
          (.ok (some "Conflict resolved using Google version"),
           { s1 with mappings := mappings2 })
    else (.error { status := 400, detail := "Invalid resolution option" }, s)

end Cal

namespace Sched

/-- The urgent/overdue task of the scoring scenario: priority urgent,
complexity 9, one estimated hour, deadline one day before the target date. -/
def urgentTask : Task :=
  { oid := "t1", title := "Urgent paper", deadlineDay := some (-1),
    priority := "urgent", complexity_score := 9, estimated_hours := 1 }

/-- Preferences with the default study hours 09:00 to 21:00 and no blocked
times. -/
def openDayPrefs : Preferences := {}

/-- The same preferences with a single daily 12:00 to 13:00 blocked time. -/
def lunchBlockedPrefs : Preferences :=
  { blocked_times := [{ day := "daily", start_time := 720, end_time := 780 }] }

/-- A scored task that selects a 90-minute deep work session at low stress:
estimated three hours, medium complexity. -/
def longTask : ScoredTask :=
  { oid := "t9", title := "Big project", deadlineDay := none,
    priority := "medium", complexity_score := 5, estimated_hours := 3,
    scheduling_score := 57, deadline_urgency := "flexible",
    days_until_deadline := 30 }

/-- Three free 30-minute slots from 09:00. -/
def threeSlots : List TimeSlot :=
  [{ start := 540, «end» := 570 }, { start := 570, «end» := 600 },
   { start := 600, «end» := 630 }]

/-- Preferences capping daily study at half an hour. -/
def halfHourPrefs : Preferences := { max_daily_study_hours := 1/2 }

end Sched

namespace Planner

/-- A pending half-hour block for task t1. -/
def pendingBlock : PBlock :=
  { id := "b1", task_id := "t1", task_title := "T", start_time := 600,
    end_time := 630, duration_minutes := 30, session_type := "pomodoro",
    complexity := 5, priority := "medium", deadline_urgency := "flexible",
    completed := false, notes := "" }

/-- A stored plan holding exactly the pending block, with the totals
invariant satisfied: 30 minutes gives 0.5 hours. -/
def onePlan : PlanDoc :=
  { user_id := "u", date := "2026-01-05", study_blocks := [pendingBlock],
    break_blocks := [], total_study_hours := 1/2, ai_reasoning := "r",
    modifications := [] }

/-- A store holding exactly that plan and no tasks. -/
def oneStore : Store := { plans := [onePlan], tasks := [] }

end Planner

namespace Cal

/-- A connected, enabled sync configuration for user u. -/
def okConfig : SyncConfig :=
  { user_id := "u", google_calendar_id := "cal1", sync_enabled := true,
    client_ok := true }

/-- A mapping of task t1 to remote event 7. -/
def t1Mapping : Mapping :=
  { mid := 0, user_id := "u", local_entity_type := "task",
    local_entity_id := "t1", google_event_id := 7,
    google_calendar_id := "cal1", last_synced_at := 0,
    last_modified_local := 0, last_modified_google := 0,
    sync_status := "conflict", version_hash := "h0" }

/-- A task t1 with a deadline, syncable to the calendar. -/
def t1Task : CTask :=
  { oid := "t1", title := "Old title", description := "d",
    deadline := some 500, priority := "high", status := "todo",
    estimated_hours := 2, complexity_score := 5 }

/-- The remote event mapped to t1 as the remote side sees it after an edit:
different summary and start than the local task. -/
def remoteEvent7 : GEvent :=
  { summary := "New title", description := "", start := 980, finish := 1100,
    colorId := "5" }

/-- State for the deletion scenario: connected client, mapping to event 7
present, but event 7 already absent from the remote calendar. -/
def absentRemoteState : CalState :=
  { remote := { events := [], nextId := 0 }, mappings := [t1Mapping],
    nextMid := 1, tasks := [t1Task], syncConfigs := [okConfig], plans := [] }

/-- State for the fresh-sync scenario: connected client, task t1 present, no
mapping and an empty remote calendar. -/
def freshSyncState : CalState :=
  { remote := { events := [], nextId := 0 }, mappings := [], nextMid := 0,
    tasks := [t1Task], syncConfigs := [okConfig], plans := [] }

/-- State for the conflict-resolution scenario: mapping 0 links task t1 to
remote event 7, which exists with a diverged summary and start. -/
def conflictState : CalState :=
  { remote := { events := [(7, remoteEvent7)], nextId := 8 },
    mappings := [t1Mapping], nextMid := 1, tasks := [t1Task],
    syncConfigs := [okConfig], plans := [] }

end Cal

/-
  Theorems.
-/

namespace Sched

/-- Spending any two fuel amounts at least endM - current gives the same
slot walk, so the fuel used by calculate_available_slots is immaterial. -/
theorem slotsLoop_fuel_irrelevant (blocked : List BlockedTime)
    (dayName : String) :
    ∀ fuel fuel2 current endM, endM - current ≤ fuel → endM - current ≤ fuel2 →
      slotsLoop blocked dayName fuel current endM
        = slotsLoop blocked dayName fuel2 current endM := by
  intro fuel
  induction fuel with
  | zero =>
    intro fuel2 current endM h h2
    cases fuel2 with
    | zero => rfl
    | succ n =>
      have : ¬ current < endM := by omega
      simp [slotsLoop, this]
  | succ n ih =>
    intro fuel2 current endM h h2
    cases fuel2 with
    | zero =>
      have : ¬ current < endM := by omega
      simp [slotsLoop, this]
    | succ m =>
      simp only [slotsLoop]
      by_cases hc : current < endM
      · simp only [hc, if_true]
        rw [ih m (min (current + 30) endM) endM (by omega) (by omega)]
      · simp [hc]

/-- Claim C3: a task with priority urgent, complexity 9, one estimated hour
and a deadline one day before the target date, scored at stress level 2,
receives scheduling_score 96.5 (40 + 25 + 18 + 13.5) and deadline urgency
immediate. -/
theorem C3_urgent_overdue_task_score :
    (score_tasks [urgentTask] 0 2).map
        (fun s => (s.scheduling_score, s.deadline_urgency))
      = [((96.5 : ℚ), "immediate")] := by
  norm_num [score_tasks, sortByScoreDesc, insertDesc, scoreTask, urgentTask,
    deadline_score, priority_score, complexity_stress_score, time_score,
    qmax, qmin, roundTo1, roundHalfEven, get_urgency_label, Rat.floor]

/-- Claim C7: with study hours 09:00 to 21:00 and no blocked times the slot
calculator returns exactly 24 thirty-minute slots; with one daily 12:00 to
13:00 blocked entry it returns exactly 22 slots, and the missing ones are
exactly the 12:00 and 12:30 slots. -/
theorem C7_slot_calculator_scenario :
    (calculate_available_slots openDayPrefs "monday").length = 24
    ∧ (calculate_available_slots lunchBlockedPrefs "monday").length = 22
    ∧ calculate_available_slots lunchBlockedPrefs "monday"
        = (calculate_available_slots openDayPrefs "monday").filter
            (fun s => !(s.start == 720 || s.start == 750)) := by
  refine ⟨by decide, by decide, by decide⟩

/-- Claim C8: at stress at least 8 every session type is capped at 20
minutes; at stress in [6, 8) the durations are the bases scaled by 0.8 and
truncated (20, 72, 12); below stress 6 the bases are returned unchanged
(25, 90, 15). -/
theorem C8_session_duration_stress (session_type : String) (stress : ℚ) :
    (8 ≤ stress → get_session_duration session_type stress ≤ 20)
    ∧ (6 ≤ stress → stress < 8 →
        get_session_duration "pomodoro" stress = 20
        ∧ get_session_duration "deep_work" stress = 72
        ∧ get_session_duration "short_burst" stress = 12)
    ∧ (stress < 6 →
        get_session_duration "pomodoro" stress = 25
        ∧ get_session_duration "deep_work" stress = 90
        ∧ get_session_duration "short_burst" stress = 15) := by
  have hpom : base_durations "pomodoro" = 25 := by decide
  have hdeep : base_durations "deep_work" = 90 := by decide
  have hshort : base_durations "short_burst" = 15 := by decide
  refine ⟨?_, ?_, ?_⟩
  · intro h
    simp only [get_session_duration]
    rw [if_pos (by linarith)]
    omega
  · intro h1 h2
    refine ⟨?_, ?_, ?_⟩
    · simp only [get_session_duration, hpom]
      rw [if_neg (by linarith), if_pos (by linarith)]
      norm_num [Rat.floor]
      decide
    · simp only [get_session_duration, hdeep]
      rw [if_neg (by linarith), if_pos (by linarith)]
      norm_num [Rat.floor]
      decide
    · simp only [get_session_duration, hshort]
      rw [if_neg (by linarith), if_pos (by linarith)]
      norm_num [Rat.floor]
      decide
  · intro h
    refine ⟨?_, ?_, ?_⟩
    · simp only [get_session_duration, hpom]
      rw [if_neg (by linarith), if_neg (by linarith)]
    · simp only [get_session_duration, hdeep]
      rw [if_neg (by linarith), if_neg (by linarith)]
    · simp only [get_session_duration, hshort]
      rw [if_neg (by linarith), if_neg (by linarith)]

/-- Witness for C8 at stress levels 9, 7 and 2. -/
theorem C8_session_duration_stress_witness :
    get_session_duration "deep_work" 9 ≤ 20
    ∧ get_session_duration "deep_work" 7 = 72
    ∧ get_session_duration "deep_work" 2 = 90 :=
  ⟨(C8_session_duration_stress "deep_work" 9).1 (by norm_num),
   ((C8_session_duration_stress "deep_work" 7).2.1 (by norm_num)
     (by norm_num)).2.1,
   ((C8_session_duration_stress "deep_work" 2).2.2 (by norm_num)).2.1⟩

/-- Claim C9: when there are no active tasks, or the computed slot list is
empty, schedule generation returns a plan with no study blocks, no break
blocks, zero total study hours and a non-empty explanatory reasoning string
(the embedding is a total function, so no exception is possible). -/
theorem C9_empty_inputs_give_empty_plan (active_tasks : List Task)
    (targetDay : ℤ) (dayName : String) (prefs : Preferences) (stress : ℚ)
    (ai : Option Schedule)
    (h : active_tasks = [] ∨ calculate_available_slots prefs dayName = []) :
    (generate_study_schedule active_tasks targetDay dayName prefs stress
        ai).study_blocks = []
    ∧ (generate_study_schedule active_tasks targetDay dayName prefs stress
        ai).break_blocks = []
    ∧ (generate_study_schedule active_tasks targetDay dayName prefs stress
        ai).total_study_hours = 0
    ∧ (generate_study_schedule active_tasks targetDay dayName prefs stress
        ai).ai_reasoning ≠ "" := by
  rcases h with h | h
  · subst h
    refine ⟨rfl, rfl, rfl, ?_⟩
    have hr : (generate_study_schedule [] targetDay dayName prefs stress
        ai).ai_reasoning
      = "No active tasks found. Add some tasks to generate a study schedule." := rfl
    rw [hr]
    decide
  · cases active_tasks with
    | nil =>
      refine ⟨rfl, rfl, rfl, ?_⟩
      have hr : (generate_study_schedule [] targetDay dayName prefs stress
          ai).ai_reasoning
        = "No active tasks found. Add some tasks to generate a study schedule." := rfl
      rw [hr]
      decide
    | cons t ts =>
      simp only [generate_study_schedule, List.isEmpty_cons, Bool.false_eq_true,
        if_false, h, List.isEmpty_nil, if_true]
      refine ⟨by trivial, by trivial, by trivial, by decide⟩

/-- Witness for C9: no active tasks at all. -/
theorem C9_empty_inputs_give_empty_plan_witness :
    (generate_study_schedule [] 0 "monday" openDayPrefs 5 none).study_blocks = []
    ∧ (generate_study_schedule [] 0 "monday" openDayPrefs 5 none).break_blocks = []
    ∧ (generate_study_schedule [] 0 "monday" openDayPrefs 5 none).total_study_hours = 0
    ∧ (generate_study_schedule [] 0 "monday" openDayPrefs 5 none).ai_reasoning ≠ "" :=
  C9_empty_inputs_give_empty_plan [] 0 "monday" openDayPrefs 5 none (.inl rfl)

end Sched

namespace Sched

/-- The truncation of a rational bounded by a natural number is bounded by
it. -/
theorem ratFloor_toNat_le (x : ℚ) (n : ℕ) (h : x ≤ (n : ℚ)) :
    (Rat.floor x).toNat ≤ n := by
  rw [Int.toNat_le]
  by_contra hc
  push_neg at hc
  have h2 : ((n : ℤ) + 1 : ℤ) ≤ Rat.floor x := by omega
  have h3 : (((n : ℤ) + 1 : ℤ) : ℚ) ≤ x := Rat.le_floor.mp h2
  push_cast at h3
  linarith

/-- Every base session duration is at most 90 minutes. -/
theorem base_durations_le_90 (st : String) : base_durations st ≤ 90 := by
  by_cases h1 : st = "pomodoro" <;> by_cases h2 : st = "deep_work" <;>
    by_cases h3 : st = "short_burst" <;> simp [base_durations, h1, h2, h3]

/-- Every selected session duration is at most 90 minutes. -/
theorem get_session_duration_le_90 (st : String) (q : ℚ) :
    get_session_duration st q ≤ 90 := by
  have hb := base_durations_le_90 st
  simp only [get_session_duration]
  split
  · omega
  · split
    · apply ratFloor_toNat_le
      have hbq : ((base_durations st : ℚ)) ≤ 90 := by exact_mod_cast hb
      have h0 : (0 : ℚ) ≤ (base_durations st : ℚ) := by positivity
      linarith
    · exact hb

/-- Break insertion does not change the running total of study minutes. -/
theorem insertBreak_total (time_slots : List TimeSlot) (prefs : Preferences)
    (s : FBState) : (insertBreak time_slots prefs s).total_minutes
      = s.total_minutes := by
  unfold insertBreak
  split <;> rfl

/-- Break insertion does not change the placed study blocks. -/
theorem insertBreak_blocks (time_slots : List TimeSlot) (prefs : Preferences)
    (s : FBState) : (insertBreak time_slots prefs s).study_blocks
      = s.study_blocks := by
  unfold insertBreak
  split <;> rfl

/-- A fitted duration never exceeds 90 minutes: the raw duration is at most
90, and when it overflows the remaining slots there are at most two of them
left. -/
theorem durationFor_le_90 (time_slots : List TimeSlot) (stress : ℚ)
    (task : ScoredTask) (idx : ℕ) (hidx : idx < time_slots.length) :
    durationFor time_slots stress task idx ≤ 90 := by
  have hraw : rawDurationFor time_slots stress task idx ≤ 90 :=
    get_session_duration_le_90 _ _
  unfold durationFor
  split
  · next hov =>
    unfold overflows at hov
    omega
  · exact hraw

/-- The cursor walk keeps the running total below cap + 90: a block is only
placed after checking that the total is still below the cap, and no block
exceeds 90 minutes. -/
theorem fallbackLoop_total_bound (slots : List TimeSlot) (prefs : Preferences)
    (stress : ℚ) :
    ∀ tasks s, (s.total_minutes : ℚ) < prefs.max_daily_study_hours * 60 + 90 →
      ((fallbackLoop slots prefs stress tasks s).total_minutes : ℚ)
        < prefs.max_daily_study_hours * 60 + 90 := by
  intro tasks
  induction tasks with
  | nil => intro s h; simpa [fallbackLoop] using h
  | cons task rest ih =>
    intro s h
    simp only [fallbackLoop]
    by_cases hstop : s.current_slot_idx ≥ slots.length
        ∨ (s.total_minutes : ℚ) ≥ prefs.max_daily_study_hours * 60
    · rw [if_pos hstop]
      exact h
    · rw [if_neg hstop]
      push_neg at hstop
      by_cases hshort : durationFor slots stress task s.current_slot_idx < 15
      · rw [if_pos hshort]
        exact ih s h
      · rw [if_neg hshort]
        by_cases hout :
            (insertBreak slots prefs s).current_slot_idx ≥ slots.length
        · rw [if_pos hout, insertBreak_total]
          exact h
        · rw [if_neg hout]
          apply ih
          have hd := durationFor_le_90 slots stress task s.current_slot_idx
            hstop.1
          have hlt := hstop.2
          simp only [placeBlock, insertBreak_total]
          push_cast
          have hdq : ((durationFor slots stress task s.current_slot_idx : ℕ)
            : ℚ) ≤ 90 := by exact_mod_cast hd
          linarith

/-- The running total equals the sum of placed block durations throughout
the walk. -/
theorem fallbackLoop_total_eq_sum (slots : List TimeSlot)
    (prefs : Preferences) (stress : ℚ) :
    ∀ tasks s, s.total_minutes = sumDurations s.study_blocks →
      (fallbackLoop slots prefs stress tasks s).total_minutes
        = sumDurations (fallbackLoop slots prefs stress tasks s).study_blocks := by
  intro tasks
  induction tasks with
  | nil => intro s h; simpa [fallbackLoop] using h
  | cons task rest ih =>
    intro s h
    simp only [fallbackLoop]
    by_cases hstop : s.current_slot_idx ≥ slots.length
        ∨ (s.total_minutes : ℚ) ≥ prefs.max_daily_study_hours * 60
    · rw [if_pos hstop]
      exact h
    · rw [if_neg hstop]
      by_cases hshort : durationFor slots stress task s.current_slot_idx < 15
      · rw [if_pos hshort]
        exact ih s h
      · rw [if_neg hshort]
        by_cases hout :
            (insertBreak slots prefs s).current_slot_idx ≥ slots.length
        · rw [if_pos hout, insertBreak_total, insertBreak_blocks]
          exact h
        · rw [if_neg hout]
          apply ih
          simp only [placeBlock, insertBreak_total, insertBreak_blocks,
            sumDurations, List.map_append, List.sum_append, List.map_cons,
            List.map_nil, List.sum_cons, List.sum_nil]
          simp only [sumDurations] at h
          omega

/-- Claim C1 (amended): for nonnegative max_daily_study_hours the fallback
schedule places strictly less than max_daily_study_hours * 60 + 90 study
minutes: the cap is checked before a block is placed, so the walk can
overshoot the cap by one session of at most 90 minutes. -/
theorem C1_cap_amended (scored_tasks : List ScoredTask)
    (time_slots : List TimeSlot) (prefs : Preferences) (stress : ℚ)
    (h : 0 ≤ prefs.max_daily_study_hours) :
    ((sumDurations (generate_fallback_schedule scored_tasks time_slots prefs
        stress).study_blocks : ℕ) : ℚ)
      < prefs.max_daily_study_hours * 60 + 90 := by
  have hb := fallbackLoop_total_bound time_slots prefs stress scored_tasks
    { study_blocks := [], break_blocks := [], current_slot_idx := 0,
      consecutive_blocks := 0, total_minutes := 0 } (by push_cast; linarith)
  have hs := fallbackLoop_total_eq_sum time_slots prefs stress scored_tasks
    { study_blocks := [], break_blocks := [], current_slot_idx := 0,
      consecutive_blocks := 0, total_minutes := 0 } rfl
  have hgen : (generate_fallback_schedule scored_tasks time_slots prefs
      stress).study_blocks
    = (fallbackLoop time_slots prefs stress scored_tasks
        { study_blocks := [], break_blocks := [], current_slot_idx := 0,
          consecutive_blocks := 0, total_minutes := 0 }).study_blocks := rfl
  rw [hgen, ← hs]
  exact hb

/-- Witness for the amended C1 with the default preferences. -/
theorem C1_cap_amended_witness :
    0 ≤ openDayPrefs.max_daily_study_hours
    ∧ ((sumDurations (generate_fallback_schedule [longTask] threeSlots
        openDayPrefs 0).study_blocks : ℕ) : ℚ)
      < openDayPrefs.max_daily_study_hours * 60 + 90 :=
  ⟨by norm_num [openDayPrefs],
   C1_cap_amended [longTask] threeSlots openDayPrefs 0
     (by norm_num [openDayPrefs])⟩

/-- Claim C1 is false as stated: with the cap at half an hour, one
three-hour medium task at stress 0 and three free slots, the fallback places
a single 90-minute deep work block, and 90 > 0.5 * 60. -/
theorem C1_cap_counterexample :
    ¬ ((sumDurations (generate_fallback_schedule [longTask] threeSlots
          halfHourPrefs 0).study_blocks : ℚ)
        ≤ halfHourPrefs.max_daily_study_hours * 60) := by
  have hv : sumDurations (generate_fallback_schedule [longTask] threeSlots
      halfHourPrefs 0).study_blocks = 90 := by
    norm_num [generate_fallback_schedule, fallbackLoop, longTask, threeSlots,
      halfHourPrefs, durationFor, rawDurationFor, sessionFor, hourAt,
      overflows, slotsNeededFor, select_session_type, get_session_duration,
      base_durations, insertBreak, placeBlock, sumDurations]
    decide
  rw [hv]
  norm_num [halfHourPrefs]

end Sched

namespace Planner

/-- When no block has the requested id, the find-and-update loop reports
failure. -/
theorem updateFirstBlock_eq_none (bid : String) (f : PBlock → PBlock)
    (bs : List PBlock) (h : bs.any (fun b => b.id == bid) = false) :
    updateFirstBlock bid f bs = none := by
  induction bs with
  | nil => rfl
  | cons b t ih =>
    simp only [List.any_cons, Bool.or_eq_false_iff] at h
    have hb : ¬ b.id = bid := by simpa using h.1
    unfold updateFirstBlock
    rw [if_neg hb, ih h.2]
    rfl

/-- Claim C10: each of the four block-mutation endpoints is atomic on a
failed lookup: when the plan, the block, or (for add) the task is missing,
the endpoint reports a 404 and the store is unchanged. -/
theorem C10_mutations_atomic_on_lookup_failure (user today : String) (now : ℕ)
    (op : MutOp) (s : Store) (h : lookupFails user op s = true) :
    (applyMut user today now op s).2 = s
    ∧ ∃ d, (applyMut user today now op s).1
        = Except.error { status := 404, detail := d } := by
  cases op with
  | update d bid u =>
    simp only [lookupFails] at h
    cases hfp : findPlan s user d with
    | none =>
      simp only [applyMut, update_study_block, hfp]
      exact ⟨trivial, _, rfl⟩
    | some p =>
      rw [hfp] at h
      simp only [Bool.not_eq_true'] at h
      simp only [applyMut, update_study_block, hfp,
        updateFirstBlock_eq_none bid (applyUpdate u) p.study_blocks h]
      exact ⟨trivial, _, rfl⟩
  | complete d bid =>
    simp only [lookupFails] at h
    cases hfp : findPlan s user d with
    | none =>
      simp only [applyMut, complete_study_block, hfp]
      exact ⟨trivial, _, rfl⟩
    | some p =>
      rw [hfp] at h
      simp only [Bool.not_eq_true'] at h
      have hfb : findBlock p.study_blocks bid = none := by
        unfold findBlock
        rw [List.find?_eq_none]
        intro x hx
        have := (List.any_eq_false.mp h) x hx
        simpa using this
      simp only [applyMut, complete_study_block, hfp, hfb]
      exact ⟨trivial, _, rfl⟩
  | remove d bid =>
    simp only [lookupFails] at h
    cases hfp : findPlan s user d with
    | none =>
      simp only [applyMut, remove_study_block, hfp]
      exact ⟨trivial, _, rfl⟩
    | some p =>
      rw [hfp] at h
      simp only [Bool.not_eq_true'] at h
      have hfilter : p.study_blocks.filter (fun b => !(b.id == bid))
          = p.study_blocks := by
        apply List.filter_eq_self.mpr
        intro x hx
        have := (List.any_eq_false.mp h) x hx
        simpa using this
      simp only [applyMut, remove_study_block, hfp, hfilter, if_pos]
      exact ⟨trivial, _, rfl⟩
  | add d blk =>
    simp only [lookupFails] at h
    cases hfp : findPlan s user d with
    | none =>
      simp only [applyMut, add_study_block, hfp]
      exact ⟨trivial, _, rfl⟩
    | some p =>
      rw [hfp] at h
      rw [Option.isNone_iff_eq_none] at h
      simp only [applyMut, add_study_block, hfp, h]
      exact ⟨trivial, _, rfl⟩
  | reschedule tid reason =>
    exact absurd h (by simp [lookupFails])

/-- Witness for C10: updating a block id that does not exist in the stored
plan. -/
theorem C10_mutations_atomic_on_lookup_failure_witness :
    lookupFails "u" (.update "2026-01-05" "zz" {}) oneStore = true
    ∧ ((applyMut "u" "2026-01-05" 0 (.update "2026-01-05" "zz" {})
          oneStore).2 = oneStore
      ∧ ∃ d, (applyMut "u" "2026-01-05" 0 (.update "2026-01-05" "zz" {})
            oneStore).1 = Except.error { status := 404, detail := d }) :=
  ⟨by decide,
   C10_mutations_atomic_on_lookup_failure "u" "2026-01-05" 0
     (.update "2026-01-05" "zz" {}) oneStore (by decide)⟩

end Planner

namespace Planner

/-- Replacing the stored plan rewrites exactly the found document: a
subsequent lookup of the same key returns the written plan. -/
theorem find_replacePlan (plans : List PlanDoc) (user date : String)
    (pre p2 : PlanDoc)
    (hfp : plans.find? (fun p => p.user_id = user && p.date = date) = some pre)
    (hu : p2.user_id = pre.user_id) (hd : p2.date = pre.date) :
    (replacePlan plans p2).find? (fun p => p.user_id = user && p.date = date)
      = some p2 := by
  induction plans with
  | nil => simp at hfp
  | cons q t ih =>
    by_cases hq : (q.user_id = user && q.date = date) = true
    · simp only [List.find?_cons, hq] at hfp
      have hqpre : q = pre := by injection hfp
      subst hqpre
      simp only [Bool.and_eq_true, decide_eq_true_eq] at hq
      have hp2 : (p2.user_id = user && p2.date = date) = true := by
        simp [hu, hd, hq.1, hq.2]
      unfold replacePlan
      rw [if_pos (by simp [hu, hd, hq.1, hq.2])]
      simp only [List.find?_cons, hp2]
    · rw [Bool.not_eq_true] at hq
      simp only [List.find?_cons, hq] at hfp
      have hpre := List.find?_some hfp
      simp only [Bool.and_eq_true, decide_eq_true_eq] at hpre
      unfold replacePlan
      rw [if_neg (by
        simp only [Bool.and_eq_true, decide_eq_true_eq]
        rintro ⟨h1, h2⟩
        rw [h1, hu, h2, hd] at hq
        simp [hpre.1, hpre.2] at hq)]
      simp only [List.find?_cons, hq]
      exact ih hfp

/-- updateFirst with a duration-preserving patch preserves the multiset of
durations positionally. -/
theorem updateFirst_durations (p : PBlock → Bool) (f : PBlock → PBlock)
    (hf : ∀ b, (f b).duration_minutes = b.duration_minutes) :
    ∀ bs : List PBlock,
      (updateFirst p f bs).map (fun b => b.duration_minutes)
        = bs.map (fun b => b.duration_minutes) := by
  intro bs
  induction bs with
  | nil => rfl
  | cons b t ih =>
    unfold updateFirst
    by_cases hb : p b = true
    · rw [if_pos hb]
      simp [hf b]
    · rw [if_neg hb]
      simp [ih]

/-- The block-patch loop preserves the durations: the patch body cannot
touch duration_minutes. -/
theorem updateFirstBlock_durations (bid : String) (f : PBlock → PBlock)
    (hf : ∀ b, (f b).duration_minutes = b.duration_minutes) :
    ∀ bs bs2 : List PBlock, updateFirstBlock bid f bs = some bs2 →
      bs2.map (fun b => b.duration_minutes)
        = bs.map (fun b => b.duration_minutes) := by
  intro bs
  induction bs with
  | nil => intro bs2 h; exact absurd h (by simp [updateFirstBlock])
  | cons b t ih =>
    intro bs2 h
    unfold updateFirstBlock at h
    by_cases hb : b.id = bid
    · rw [if_pos hb] at h
      have : f b :: t = bs2 := by injection h
      subst this
      simp [hf b]
    · rw [if_neg hb] at h
      cases ht : updateFirstBlock bid f t with
      | none => rw [ht] at h; exact absurd h (by simp)
      | some t2 =>
        rw [ht] at h
        have : b :: t2 = bs2 := by injection h
        subst this
        simp [ih t2 ht]

end Planner

namespace Planner

/-- A lookup after a keyed replace returns exactly the written document. -/
theorem findPlan_write (plans : List PlanDoc) (user date : String)
    (pre p2 post : PlanDoc)
    (hpre : plans.find? (fun p => p.user_id = user && p.date = date) = some pre)
    (hpost : (replacePlan plans p2).find?
      (fun p => p.user_id = user && p.date = date) = some post)
    (hu : p2.user_id = pre.user_id) (hd : p2.date = pre.date) :
    post = p2 := by
  rw [find_replacePlan plans user date pre p2 hpre hu hd] at hpost
  injection hpost with h
  exact h.symm

/-- Claim C2 (amended): add_block and remove_block re-establish
total_study_hours = round(sum of all duration_minutes / 60, 1); update_block
and complete_block leave both total_study_hours and every duration unchanged;
quick_reschedule instead sets total_study_hours to the rounded sum over the
non-completed blocks only (or leaves the plan untouched when the task has no
pending blocks today). -/
theorem C2_total_hours_amended (user today : String) (now : ℕ) (op : MutOp)
    (s : Store) (pre : PlanDoc)
    (hpre : findPlan s user (opDate today op) = some pre)
    (r : String) (s2 : Store)
    (happly : applyMut user today now op s = (Except.ok r, s2))
    (post : PlanDoc)
    (hpost : findPlan s2 user (opDate today op) = some post) :
    match op with
    | .add _ _ =>
        post.total_study_hours
          = Sched.roundTo1 ((sumD post.study_blocks : ℚ) / 60)
    | .remove _ _ =>
        post.total_study_hours
          = Sched.roundTo1 ((sumD post.study_blocks : ℚ) / 60)
    | .update _ _ _ =>
        post.total_study_hours = pre.total_study_hours
        ∧ post.study_blocks.map (fun b => b.duration_minutes)
            = pre.study_blocks.map (fun b => b.duration_minutes)
    | .complete _ _ =>
        post.total_study_hours = pre.total_study_hours
        ∧ post.study_blocks.map (fun b => b.duration_minutes)
            = pre.study_blocks.map (fun b => b.duration_minutes)
    | .reschedule _ _ =>
        post = pre
        ∨ post.total_study_hours
            = Sched.roundTo1 ((sumDPending post.study_blocks : ℚ) / 60) := by
  cases op with
  | update d bid u =>
    dsimp only [applyMut, opDate] at happly hpre hpost ⊢
    unfold update_study_block at happly
    rw [hpre] at happly
    try dsimp only at happly
    cases hub : updateFirstBlock bid (applyUpdate u) pre.study_blocks with
    | none =>
      rw [hub] at happly
      exact absurd (congrArg Prod.fst happly) (by simp)
    | some blocks2 =>
      rw [hub] at happly
      try dsimp only at happly
      have hs2 := congrArg Prod.snd happly
      try dsimp only at hs2
      rw [← hs2] at hpost
      try dsimp only at hpost
      have hp := findPlan_write s.plans user d pre _ post hpre hpost rfl rfl
      subst hp
      refine ⟨rfl, ?_⟩
      exact updateFirstBlock_durations bid (applyUpdate u) (fun b => rfl)
        pre.study_blocks blocks2 hub
  | complete d bid =>
    dsimp only [applyMut, opDate] at happly hpre hpost ⊢
    unfold complete_study_block at happly
    rw [hpre] at happly
    try dsimp only at happly
    cases hfb : findBlock pre.study_blocks bid with
    | none =>
      rw [hfb] at happly
      exact absurd (congrArg Prod.fst happly) (by simp)
    | some blk =>
      rw [hfb] at happly
      try dsimp only at happly
      have hs2 := congrArg Prod.snd happly
      try dsimp only at hs2
      rw [← hs2] at hpost
      try dsimp only at hpost
      have hp := findPlan_write s.plans user d pre _ post hpre hpost rfl rfl
      subst hp
      refine ⟨rfl, ?_⟩
      exact updateFirst_durations (fun b => b.id == bid)
        (fun b => { b with completed := true }) (fun b => rfl)
        pre.study_blocks
  | remove d bid =>
    dsimp only [applyMut, opDate] at happly hpre hpost ⊢
    unfold remove_study_block at happly
    rw [hpre] at happly
    try dsimp only at happly
    by_cases hlen : (pre.study_blocks.filter (fun b => !(b.id == bid))).length
        = pre.study_blocks.length
    · rw [if_pos hlen] at happly
      exact absurd (congrArg Prod.fst happly) (by simp)
    · rw [if_neg hlen] at happly
      try dsimp only at happly
      have hs2 := congrArg Prod.snd happly
      try dsimp only at hs2
      rw [← hs2] at hpost
      try dsimp only at hpost
      have hp := findPlan_write s.plans user d pre _ post hpre hpost rfl rfl
      subst hp
      rfl
  | add d blk =>
    dsimp only [applyMut, opDate] at happly hpre hpost ⊢
    unfold add_study_block at happly
    rw [hpre] at happly
    try dsimp only at happly
    cases hft : s.tasks.find? (fun t => t.oid = blk.task_id) with
    | none =>
      rw [hft] at happly
      exact absurd (congrArg Prod.fst happly) (by simp)
    | some task =>
      rw [hft] at happly
      try dsimp only at happly
      have hs2 := congrArg Prod.snd happly
      try dsimp only at hs2
      rw [← hs2] at hpost
      try dsimp only at hpost
      have hp := findPlan_write s.plans user d pre _ post hpre hpost rfl rfl
      subst hp
      rfl
  | reschedule tid reason =>
    dsimp only [applyMut, opDate] at happly hpre hpost ⊢
    unfold quick_reschedule at happly
    rw [hpre] at happly
    try dsimp only at happly
    by_cases haff :
        (pre.study_blocks.filter
          (fun b => b.task_id == tid && !b.completed)).isEmpty = true
    · rw [if_pos haff] at happly
      have hs2 := congrArg Prod.snd happly
      try dsimp only at hs2
      rw [← hs2] at hpost
      try dsimp only at hpost
      rw [hpre] at hpost
      injection hpost with h
      exact Or.inl h.symm
    · rw [if_neg haff] at happly
      by_cases h1 : reason = "too_stressed"
      · rw [if_pos h1] at happly
        try dsimp only at happly
        have hs2 := congrArg Prod.snd happly
        try dsimp only at hs2
        unfold writeReschedule at hs2
        try dsimp only at hs2
        rw [← hs2] at hpost
        try dsimp only at hpost
        have hp := findPlan_write s.plans user today pre _ post hpre hpost rfl rfl
        subst hp
        exact Or.inr rfl
      · rw [if_neg h1] at happly
        by_cases h2 : reason = "no_time"
        · rw [if_pos h2] at happly
          try dsimp only at happly
          cases hle : latestEnd pre.study_blocks
              (pre.study_blocks.filter (fun b => !(b.task_id == tid))) with
          | none =>
            rw [hle] at happly
            exact absurd (congrArg Prod.fst happly) (by simp)
          | some le0 =>
            rw [hle] at happly
            try dsimp only at happly
            have hs2 := congrArg Prod.snd happly
            try dsimp only at hs2
            unfold writeReschedule at hs2
            try dsimp only at hs2
            rw [← hs2] at hpost
            try dsimp only at hpost
            have hp := findPlan_write s.plans user today pre _ post hpre hpost rfl rfl
            subst hp
            exact Or.inr rfl
        · rw [if_neg h2] at happly
          by_cases h3 : reason = "priority_change"
          · rw [if_pos h3] at happly
            have hs2 := congrArg Prod.snd happly
            try dsimp only at hs2
            unfold writeReschedule at hs2
            try dsimp only at hs2
            rw [← hs2] at hpost
            try dsimp only at hpost
            have hp := findPlan_write s.plans user today pre _ post hpre hpost rfl rfl
            subst hp
            exact Or.inr rfl
          · rw [if_neg h3] at happly
            by_cases h4 : reason = "completed_early"
            · rw [if_pos h4] at happly
              try dsimp only at happly
              have hs2 := congrArg Prod.snd happly
              try dsimp only at hs2
              unfold writeReschedule at hs2
              try dsimp only at hs2
              rw [← hs2] at hpost
              try dsimp only at hpost
              have hp := findPlan_write s.plans user today pre _ post hpre hpost rfl rfl
              subst hp
              exact Or.inr rfl
            · rw [if_neg h4] at happly
              exact absurd (congrArg Prod.fst happly) (by simp)

end Planner

namespace Planner

/-- Witness for the amended C2: removing the only block of the stored plan
leaves total_study_hours equal to the rounded duration sum (zero). -/
theorem C2_total_hours_amended_witness :
    ((findPlan (applyMut "u" "2026-01-05" 7 (.remove "2026-01-05" "b1")
        oneStore).2 "u" "2026-01-05").elim False
      (fun post => post.total_study_hours
        = Sched.roundTo1 ((sumD post.study_blocks : ℚ) / 60))) :=
  C2_total_hours_amended "u" "2026-01-05" 7 (.remove "2026-01-05" "b1")
    oneStore onePlan rfl _ _ rfl _ rfl

/-- Claim C2 is false as stated: quick_reschedule with reason
completed_early on a plan holding one pending 30-minute block marks the
block completed and recomputes total_study_hours over the pending blocks
only, leaving 0 instead of sum(duration_minutes)/60 = 0.5. -/
theorem C2_total_invariant_counterexample :
    ((findPlan (applyMut "u" "2026-01-05" 7
        (.reschedule "t1" "completed_early") oneStore).2 "u"
        "2026-01-05").elim False
      (fun post => post.total_study_hours
          ≠ Sched.roundTo1 ((sumD post.study_blocks : ℚ) / 60))) := by
  norm_num [applyMut, quick_reschedule, findPlan, oneStore, onePlan,
    pendingBlock, writeReschedule, replacePlan, latestEnd, moveLoop, sumD,
    sumDPending, Sched.roundTo1, Sched.roundHalfEven, Rat.floor,
    List.find?]

end Planner

namespace Cal

/-- A find over a list filtered by the negated test finds nothing. -/
theorem find?_filter_not (gid : ℕ) (l : List (ℕ × GEvent)) :
    (l.filter (fun p => !(p.1 == gid))).find? (fun p => p.1 == gid) = none := by
  rw [List.find?_eq_none]
  intro x hx
  have := (List.mem_filter.mp hx).2
  simp at this
  simp [this]

/-- A successful find makes any true. -/
theorem any_of_find? {α : Type} (p : α → Bool) (l : List α) (a : α)
    (h : l.find? p = some a) : l.any p = true := by
  rw [List.any_eq_true]
  exact ⟨a, List.mem_of_find?_eq_some h, List.find?_some h⟩

/-- Deleting the only matching element leaves no matching element. -/
theorem deleteFirst_filter_none {α : Type} (p : α → Bool) (l : List α)
    (h : (l.filter p).length = 1) :
    ((deleteFirst p l).filter p).length = 0 := by
  induction l with
  | nil => simp at h
  | cons x t ih =>
    by_cases hx : p x = true
    · unfold deleteFirst
      rw [if_pos hx]
      rw [List.filter_cons_of_pos hx] at h
      simp at h ⊢
      exact h
    · unfold deleteFirst
      rw [if_neg hx]
      rw [List.filter_cons_of_neg (by simpa using hx)] at h
      rw [List.filter_cons_of_neg (by simpa using hx)]
      exact ih h

/-- Claim C4 (amended): with a working client, deletion succeeds and removes
both the remote event and the mapping only when the remote event still
exists; when the remote event is already absent the call reports failure and
leaves the state, mappings included, exactly as it was (deletion is NOT
idempotent). -/
theorem C4_delete_amended (gid : ℕ) (user : String) (s : CalState)
    (hclient : get_calendar_client s user = some ()) :
    (s.remote.read gid = none → delete_calendar_event gid user s = (false, s))
    ∧ (∀ ev, s.remote.read gid = some ev →
        (delete_calendar_event gid user s).1 = true
        ∧ (delete_calendar_event gid user s).2.remote.read gid = none
        ∧ ((s.mappings.filter (fun m => m.user_id == user
              && m.google_event_id == gid)).length = 1 →
            (((delete_calendar_event gid user s).2.mappings.filter
              (fun m => m.user_id == user
                && m.google_event_id == gid)).length = 0))) := by
  constructor
  · intro hread
    unfold delete_calendar_event
    rw [hclient]
    have hnone : s.remote.erase gid = none := by
      unfold Remote.erase
      rw [if_neg]
      intro hany
      rw [List.any_eq_true] at hany
      obtain ⟨x, hmem, hpx⟩ := hany
      unfold Remote.read at hread
      cases hfind : s.remote.events.find? (fun p => p.1 == gid) with
      | none =>
        have := List.find?_eq_none.mp hfind x hmem
        exact this hpx
      | some a => rw [hfind] at hread; simp at hread
    rw [hnone]
  · intro ev hread
    unfold delete_calendar_event
    rw [hclient]
    have hsome : s.remote.erase gid
        = some ⟨s.remote.events.filter (fun p => !(p.1 == gid)),
            s.remote.nextId⟩ := by
      unfold Remote.erase
      rw [if_pos]
      unfold Remote.read at hread
      cases hfind : s.remote.events.find? (fun p => p.1 == gid) with
      | none => rw [hfind] at hread; simp at hread
      | some a => exact any_of_find? _ _ a hfind
    rw [hsome]
    dsimp only
    refine ⟨rfl, ?_, ?_⟩
    · unfold Remote.read
      rw [find?_filter_not gid s.remote.events]
      rfl
    · intro hcount
      exact deleteFirst_filter_none _ s.mappings hcount

/-- Witness for the amended C4: event 7 absent from the remote (failure,
state untouched) and event 7 present (success). -/
theorem C4_delete_amended_witness :
    delete_calendar_event 7 "u" absentRemoteState = (false, absentRemoteState)
    ∧ (delete_calendar_event 7 "u" conflictState).1 = true :=
  ⟨(C4_delete_amended 7 "u" absentRemoteState rfl).1 rfl,
   ((C4_delete_amended 7 "u" conflictState rfl).2 remoteEvent7 rfl).1⟩

/-- Claim C4 is false as stated: with the remote event already absent, the
delete reports failure (the router then raises a 500) and the EventMapping
is left in place, so deletion is not idempotent. -/
theorem C4_delete_counterexample :
    (delete_calendar_event 7 "u" absentRemoteState).1 = false
    ∧ (delete_calendar_event 7 "u" absentRemoteState).2.mappings
        = [t1Mapping] := by
  constructor
  · rfl
  · rfl

end Cal

namespace Cal

/-- Updating the first match of a predicate relocates the find of the same
predicate to the updated element, provided the update keeps the predicate. -/
theorem find?_updateFirst {α : Type} (p : α → Bool) (f : α → α)
    (l : List α) (a : α) (h : l.find? p = some a) (hf : p (f a) = true) :
    (Planner.updateFirst p f l).find? p = some (f a) := by
  induction l with
  | nil => simp at h
  | cons x t ih =>
    cases hx : p x with
    | false =>
      rw [List.find?_cons, hx] at h
      unfold Planner.updateFirst
      rw [if_neg (by simp [hx])]
      rw [List.find?_cons, hx]
      exact ih h
    | true =>
      rw [List.find?_cons, hx] at h
      have hax : x = a := by injection h
      subst hax
      unfold Planner.updateFirst
      rw [if_pos hx]
      rw [List.find?_cons, hf]

end Cal

namespace Cal

/-- Evaluation of sync_task_to_calendar on the update branch: sync enabled,
client available, task present with a deadline, mapping present, remote event
present. -/
theorem sync_task_update_branch (task_id user : String) (now : ℕ)
    (s : CalState) (t : CTask) (m : Mapping) (body : GEvent)
    (henabled : is_sync_enabled s user = true)
    (hclient : get_calendar_client s user = some ())
    (htask : s.tasks.find? (fun t2 => t2.oid = task_id) = some t)
    (hmkey : s.mappings.find? (taskMappingKey user task_id) = some m)
    (hbody : task_to_calendar_event t = some body)
    (hany : s.remote.events.any (fun p => p.1 == m.google_event_id) = true) :
    sync_task_to_calendar task_id user now s
      = ({ success := true, message := "Task synced to calendar",
           event_id := some m.google_event_id },
         { s with
           remote := ⟨Planner.updateFirst
             (fun p => p.1 == m.google_event_id)
             (fun p => (p.1, body)) s.remote.events, s.remote.nextId⟩
           mappings := Planner.updateFirst (fun m2 => m2.mid == m.mid)
             (fun m2 => { m2 with
               last_synced_at := now
               last_modified_local := now
               sync_status := "synced"
               version_hash := versionHashTask t }) s.mappings }) := by
  unfold sync_task_to_calendar
  rw [henabled]
  dsimp only
  rw [hclient]
  dsimp only
  rw [htask]
  dsimp only
  rw [hmkey, hbody]
  dsimp only
  have hupd : s.remote.update m.google_event_id body
      = some ⟨Planner.updateFirst (fun p => p.1 == m.google_event_id)
          (fun p => (p.1, body)) s.remote.events, s.remote.nextId⟩ := by
    unfold Remote.update
    rw [if_pos hany]
  rw [hupd]
  rfl

/-- The use_google resolution on a task mapping: pulls the remote summary
into the task title and the remote start into the deadline, and marks the
mapping synced with last_modified_google stamped. -/
theorem resolve_use_google_task (mid : ℕ) (user : String) (now : ℕ)
    (s : CalState) (m : Mapping) (t : CTask) (ev : GEvent)
    (hmap : s.mappings.find? (fun m2 => m2.mid == mid && m2.user_id == user)
      = some m)
    (hmid : s.mappings.find? (fun m2 => m2.mid == mid) = some m)
    (htype : m.local_entity_type = "task")
    (hclient : get_calendar_client s user = some ())
    (ht : s.tasks.find? (fun t2 => t2.oid == m.local_entity_id) = some t)
    (hevent : s.remote.read m.google_event_id = some ev) :
    (resolve_sync_conflict mid "use_google" user now s).1
      = Except.ok (some "Conflict resolved using Google version")
    ∧ ((resolve_sync_conflict mid "use_google" user now s).2.tasks.find?
        (fun t2 => t2.oid == m.local_entity_id)).map
          (fun t2 => (t2.title, t2.deadline))
        = some (ev.summary, some ev.start)
    ∧ ((resolve_sync_conflict mid "use_google" user now s).2.mappings.find?
        (fun m2 => m2.mid == mid)).map
          (fun m2 => (m2.sync_status, m2.last_modified_google))
        = some ("synced", now) := by
  have hmtrue : (m.mid == mid) = true := by
    have h2 := List.find?_some hmap
    simp only [Bool.and_eq_true] at h2
    exact h2.1
  unfold resolve_sync_conflict
  rw [hmap]
  dsimp only
  rw [if_neg (by decide), if_pos rfl]
  rw [hclient]
  dsimp only
  rw [hevent]
  dsimp only
  rw [if_pos htype]
  dsimp only
  refine ⟨rfl, ?_, ?_⟩
  · have hp : (fun t2 : CTask => t2.oid == m.local_entity_id)
        ({ t with title := ev.summary, deadline := some ev.start }) = true := by
      have := List.find?_some ht
      simpa using this
    rw [find?_updateFirst _ _ _ _ ht hp]
    rfl
  · have hp : (fun m2 : Mapping => m2.mid == mid)
        ({ m with
            sync_status := "synced"
            last_synced_at := now
            last_modified_google := now }) = true := hmtrue
    rw [find?_updateFirst _ _ _ _ hmid hp]
    rfl

end Cal

namespace Cal

/-- The use_local resolution on a task mapping: the local task collection is
untouched, the remote event is overwritten with the event built from the
local task, and the mapping is marked synced with last_modified_local
stamped. -/
theorem resolve_use_local_task (mid : ℕ) (user : String) (now : ℕ)
    (s : CalState) (m : Mapping) (t : CTask) (ev : GEvent) (body : GEvent)
    (hmap : s.mappings.find? (fun m2 => m2.mid == mid && m2.user_id == user)
      = some m)
    (hmid : s.mappings.find? (fun m2 => m2.mid == mid) = some m)
    (htype : m.local_entity_type = "task")
    (henabled : is_sync_enabled s user = true)
    (hclient : get_calendar_client s user = some ())
    (htask : s.tasks.find? (fun t2 => t2.oid = m.local_entity_id) = some t)
    (hmkey : s.mappings.find? (taskMappingKey user m.local_entity_id) = some m)
    (hbody : task_to_calendar_event t = some body)
    (hevent : s.remote.read m.google_event_id = some ev) :
    (resolve_sync_conflict mid "use_local" user now s).1
      = Except.ok (some "Conflict resolved using local version")
    ∧ (resolve_sync_conflict mid "use_local" user now s).2.tasks = s.tasks
    ∧ (resolve_sync_conflict mid "use_local" user now s).2.remote.read
        m.google_event_id = some body
    ∧ ((resolve_sync_conflict mid "use_local" user now s).2.mappings.find?
        (fun m2 => m2.mid == mid)).map
          (fun m2 => (m2.sync_status, m2.last_modified_local))
        = some ("synced", now) := by
  have hmeq : m.mid = mid := by
    have h2 := List.find?_some hmap
    simp only [Bool.and_eq_true, beq_iff_eq] at h2
    exact h2.1
  subst hmeq
  have hany : s.remote.events.any (fun p => p.1 == m.google_event_id)
      = true := by
    unfold Remote.read at hevent
    cases hfind : s.remote.events.find? (fun p => p.1 == m.google_event_id) with
    | none => rw [hfind] at hevent; simp at hevent
    | some pr => exact any_of_find? _ _ pr hfind
  have hsync := sync_task_update_branch m.local_entity_id user now s t m body
    henabled hclient htask hmkey hbody hany
  unfold resolve_sync_conflict
  rw [hmap]
  dsimp only
  rw [if_pos rfl, if_pos htype]
  try dsimp only
  rw [hsync]
  try dsimp only
  rw [if_pos rfl]
  try dsimp only
  refine ⟨rfl, rfl, ?_, ?_⟩
  · unfold Remote.read at hevent ⊢
    cases hfind : s.remote.events.find? (fun p => p.1 == m.google_event_id) with
    | none => rw [hfind] at hevent; simp at hevent
    | some pr =>
      have hp : (fun p : ℕ × GEvent => p.1 == m.google_event_id)
          (pr.1, body) = true := by
        simpa using List.find?_some hfind
      rw [find?_updateFirst _ _ _ _ hfind hp]
      rfl
  · have hp1 : (fun m2 : Mapping => m2.mid == m.mid)
        ({ m with
            last_synced_at := now
            last_modified_local := now
            sync_status := "synced"
            version_hash := versionHashTask t }) = true := by simp
    have step1 := find?_updateFirst (fun m2 : Mapping => m2.mid == m.mid)
      (fun m2 => { m2 with
        last_synced_at := now
        last_modified_local := now
        sync_status := "synced"
        version_hash := versionHashTask t }) s.mappings m hmid hp1
    have hp2 : (fun m2 : Mapping => m2.mid == m.mid)
        ({ m with
            last_synced_at := now
            last_modified_local := now
            sync_status := "synced"
            version_hash := versionHashTask t
            last_modified_google := m.last_modified_google }) = true := by simp
    have step2 := find?_updateFirst (fun m2 : Mapping => m2.mid == m.mid)
      (fun m2 => { m2 with
        sync_status := "synced"
        last_synced_at := now
        last_modified_local := now }) _ _ step1 (by simp)
    rw [step2]
    rfl

end Cal

namespace Cal

/-- Claim C6: resolving a conflicted task mapping with use_google sets the
local task title to the remote summary and the deadline to the remote start
and marks the mapping synced (stamping last_modified_google); resolving with
use_local leaves the task collection unchanged, re-pushes the event built
from the local task to the remote calendar, marks the mapping synced and
stamps last_modified_local. -/
theorem C6_resolve_conflict_round_trip (mid : ℕ) (user : String) (now : ℕ)
    (s : CalState) (m : Mapping) (t : CTask) (ev : GEvent) (body : GEvent)
    (hmap : s.mappings.find? (fun m2 => m2.mid == mid && m2.user_id == user)
      = some m)
    (hmid : s.mappings.find? (fun m2 => m2.mid == mid) = some m)
    (htype : m.local_entity_type = "task")
    (henabled : is_sync_enabled s user = true)
    (hclient : get_calendar_client s user = some ())
    (htask : s.tasks.find? (fun t2 => t2.oid = m.local_entity_id) = some t)
    (hmkey : s.mappings.find? (taskMappingKey user m.local_entity_id) = some m)
    (hbody : task_to_calendar_event t = some body)
    (hevent : s.remote.read m.google_event_id = some ev) :
    (resolve_sync_conflict mid "use_google" user now s).1
      = Except.ok (some "Conflict resolved using Google version")
    ∧ ((resolve_sync_conflict mid "use_google" user now s).2.tasks.find?
        (fun t2 => t2.oid == m.local_entity_id)).map
          (fun t2 => (t2.title, t2.deadline))
        = some (ev.summary, some ev.start)
    ∧ ((resolve_sync_conflict mid "use_google" user now s).2.mappings.find?
        (fun m2 => m2.mid == mid)).map
          (fun m2 => (m2.sync_status, m2.last_modified_google))
        = some ("synced", now)
    ∧ (resolve_sync_conflict mid "use_local" user now s).1
      = Except.ok (some "Conflict resolved using local version")
    ∧ (resolve_sync_conflict mid "use_local" user now s).2.tasks = s.tasks
    ∧ (resolve_sync_conflict mid "use_local" user now s).2.remote.read
        m.google_event_id = some body
    ∧ ((resolve_sync_conflict mid "use_local" user now s).2.mappings.find?
        (fun m2 => m2.mid == mid)).map
          (fun m2 => (m2.sync_status, m2.last_modified_local))
        = some ("synced", now) := by
  have ht : s.tasks.find? (fun t2 => t2.oid == m.local_entity_id) = some t := by
    have hfun : (fun t2 : CTask => t2.oid == m.local_entity_id)
        = (fun t2 : CTask => decide (t2.oid = m.local_entity_id)) := by
      funext x
      by_cases hx : x.oid = m.local_entity_id <;> simp [hx]
    rw [hfun]
    exact htask
  obtain ⟨g1, g2, g3⟩ := resolve_use_google_task mid user now s m t ev hmap
    hmid htype hclient ht hevent
  obtain ⟨l1, l2, l3, l4⟩ := resolve_use_local_task mid user now s m t ev body
    hmap hmid htype henabled hclient htask hmkey hbody hevent
  exact ⟨g1, g2, g3, l1, l2, l3, l4⟩

/-- Witness for C6 on the concrete conflict state. -/
theorem C6_resolve_conflict_round_trip_witness :
    ((resolve_sync_conflict 0 "use_google" "u" 99 conflictState).2.tasks.find?
        (fun t2 => t2.oid == "t1")).map (fun t2 => (t2.title, t2.deadline))
      = some ("New title", some 980)
    ∧ (resolve_sync_conflict 0 "use_local" "u" 99 conflictState).2.tasks
        = conflictState.tasks := by
  obtain ⟨g1, g2, g3, l1, l2, l3, l4⟩ := C6_resolve_conflict_round_trip 0 "u"
    99 conflictState t1Mapping t1Task remoteEvent7 _ rfl rfl rfl rfl rfl rfl
    rfl rfl rfl
  exact ⟨g2, l2⟩

end Cal

namespace Cal

/-- An empty filter means find? fails. -/
theorem find?_of_filter_nil {α : Type} (p : α → Bool) (l : List α)
    (h : l.filter p = []) : l.find? p = none := by
  rw [List.find?_eq_none]
  intro x hx
  simp only [List.filter_eq_nil_iff] at h
  exact h x hx

/-- Appending a matching element after an all-failing list makes find? return
it. -/
theorem find?_append_last {α : Type} (p : α → Bool) (l : List α) (x : α)
    (hl : l.filter p = []) (hx : p x = true) :
    (l ++ [x]).find? p = some x := by
  induction l with
  | nil => simp [List.find?_cons, hx]
  | cons y t ih =>
    rw [List.filter_cons] at hl
    by_cases hy : p y = true
    · rw [if_pos hy] at hl
      simp at hl
    · rw [if_neg hy] at hl
      rw [Bool.not_eq_true] at hy
      rw [List.cons_append, List.find?_cons, hy]
      exact ih hl

/-- updateFirst keeps the length of the list. -/
theorem updateFirst_length {α : Type} (p : α → Bool) (f : α → α)
    (l : List α) : (Planner.updateFirst p f l).length = l.length := by
  induction l with
  | nil => rfl
  | cons x t ih =>
    unfold Planner.updateFirst
    by_cases hx : p x = true
    · rw [if_pos hx]
      simp
    · rw [if_neg hx]
      simp [ih]

/-- updateFirst with a key-preserving update keeps the number of key
matches. -/
theorem filter_updateFirst_length {α : Type} (p q : α → Bool) (f : α → α)
    (hf : ∀ y, q (f y) = q y) (l : List α) :
    ((Planner.updateFirst p f l).filter q).length = (l.filter q).length := by
  induction l with
  | nil => rfl
  | cons x t ih =>
    unfold Planner.updateFirst
    by_cases hx : p x = true
    · rw [if_pos hx]
      rw [List.filter_cons, List.filter_cons, hf x]
      by_cases hq : q x = true
      · rw [if_pos hq, if_pos hq]
        simp
      · rw [if_neg hq, if_neg hq]
    · rw [if_neg hx]
      rw [List.filter_cons, List.filter_cons]
      by_cases hq : q x = true
      · rw [if_pos hq, if_pos hq]
        simp [ih]
      · rw [if_neg hq, if_neg hq]
        exact ih

end Cal

namespace Cal

/-- Evaluation of sync_task_to_calendar on the create branch: no existing
mapping, so a fresh remote event and a fresh mapping are created. -/
theorem sync_task_insert_branch (task_id user : String) (now : ℕ)
    (s : CalState) (t : CTask) (body : GEvent)
    (henabled : is_sync_enabled s user = true)
    (hclient : get_calendar_client s user = some ())
    (htask : s.tasks.find? (fun t2 => t2.oid = task_id) = some t)
    (hnomap : s.mappings.find? (taskMappingKey user task_id) = none)
    (hbody : task_to_calendar_event t = some body) :
    sync_task_to_calendar task_id user now s
      = ({ success := true, message := "Task synced to calendar",
           event_id := some s.remote.nextId },
         { s with
           remote := ⟨s.remote.events ++ [(s.remote.nextId, body)],
             s.remote.nextId + 1⟩
           mappings := s.mappings ++
             [{ mid := s.nextMid, user_id := user,
                local_entity_type := "task", local_entity_id := task_id,
                google_event_id := s.remote.nextId,
                google_calendar_id := calendarIdOf s user,
                last_synced_at := now, last_modified_local := now,
                last_modified_google := now, sync_status := "synced",
                version_hash := versionHashTask t }]
           nextMid := s.nextMid + 1 }) := by
  unfold sync_task_to_calendar
  rw [henabled]
  dsimp only
  rw [hclient]
  dsimp only
  rw [htask]
  dsimp only
  rw [hnomap, hbody]
  rfl

/-- Claim C5: two consecutive sync_task calls with no task change in between
both succeed and report the same google event id; the first call creates
exactly one remote event and one mapping, the second call updates in place:
afterwards there is exactly one EventMapping for (user, task, task) and the
remote event count is unchanged by the second call. -/
theorem C5_sync_task_idempotent (task_id user : String) (t1n t2n : ℕ)
    (s0 : CalState) (t : CTask) (body : GEvent)
    (henabled : is_sync_enabled s0 user = true)
    (hclient : get_calendar_client s0 user = some ())
    (htask : s0.tasks.find? (fun t2 => t2.oid = task_id) = some t)
    (hbody : task_to_calendar_event t = some body)
    (hnomap : s0.mappings.filter (taskMappingKey user task_id) = []) :
    (sync_task_to_calendar task_id user t1n s0).1.success = true
    ∧ (sync_task_to_calendar task_id user t2n
        (sync_task_to_calendar task_id user t1n s0).2).1.success = true
    ∧ (sync_task_to_calendar task_id user t1n s0).1.event_id
        = some s0.remote.nextId
    ∧ (sync_task_to_calendar task_id user t2n
        (sync_task_to_calendar task_id user t1n s0).2).1.event_id
        = some s0.remote.nextId
    ∧ ((sync_task_to_calendar task_id user t2n
        (sync_task_to_calendar task_id user t1n s0).2).2.mappings.filter
          (taskMappingKey user task_id)).length = 1
    ∧ (sync_task_to_calendar task_id user t2n
        (sync_task_to_calendar task_id user t1n s0).2).2.remote.events.length
        = (sync_task_to_calendar task_id user t1n s0).2.remote.events.length
    ∧ (sync_task_to_calendar task_id user t1n s0).2.remote.events.length
        = s0.remote.events.length + 1 := by
  have hfind0 := find?_of_filter_nil _ _ hnomap
  have heval1 := sync_task_insert_branch task_id user t1n s0 t body henabled
    hclient htask hfind0 hbody
  have hs1 : (sync_task_to_calendar task_id user t1n s0).2
      = { s0 with
          remote := ⟨s0.remote.events ++ [(s0.remote.nextId, body)],
            s0.remote.nextId + 1⟩
          mappings := s0.mappings ++
            [{ mid := s0.nextMid, user_id := user,
               local_entity_type := "task", local_entity_id := task_id,
               google_event_id := s0.remote.nextId,
               google_calendar_id := calendarIdOf s0 user,
               last_synced_at := t1n, last_modified_local := t1n,
               last_modified_google := t1n, sync_status := "synced",
               version_hash := versionHashTask t }]
          nextMid := s0.nextMid + 1 } := by
    rw [heval1]
  have henabled1 : is_sync_enabled
      (sync_task_to_calendar task_id user t1n s0).2 user = true := by
    rw [hs1]
    exact henabled
  have hclient1 : get_calendar_client
      (sync_task_to_calendar task_id user t1n s0).2 user = some () := by
    rw [hs1]
    exact hclient
  have htask1 : (sync_task_to_calendar task_id user t1n s0).2.tasks.find?
      (fun t2 => t2.oid = task_id) = some t := by
    rw [hs1]
    exact htask
  have hmkey1 : (sync_task_to_calendar task_id user t1n s0).2.mappings.find?
      (taskMappingKey user task_id)
      = some { mid := s0.nextMid, user_id := user,
               local_entity_type := "task", local_entity_id := task_id,
               google_event_id := s0.remote.nextId,
               google_calendar_id := calendarIdOf s0 user,
               last_synced_at := t1n, last_modified_local := t1n,
               last_modified_google := t1n, sync_status := "synced",
               version_hash := versionHashTask t } := by
    rw [hs1]
    exact find?_append_last _ _ _ hnomap (by simp [taskMappingKey])
  have hany1 : (sync_task_to_calendar task_id user t1n s0).2.remote.events.any
      (fun p => p.1 == s0.remote.nextId) = true := by
    rw [hs1]
    simp
  have hsync2 := sync_task_update_branch task_id user t2n
    (sync_task_to_calendar task_id user t1n s0).2 t
    { mid := s0.nextMid, user_id := user,
      local_entity_type := "task", local_entity_id := task_id,
      google_event_id := s0.remote.nextId,
      google_calendar_id := calendarIdOf s0 user,
      last_synced_at := t1n, last_modified_local := t1n,
      last_modified_google := t1n, sync_status := "synced",
      version_hash := versionHashTask t } body
    henabled1 hclient1 htask1 hmkey1 hbody hany1
  refine ⟨?_, ?_, ?_, ?_, ?_, ?_, ?_⟩
  · rw [heval1]
  · rw [hsync2]
  · rw [heval1]
  · rw [hsync2]
  · rw [hsync2]
    have hkey : ∀ y : Mapping, taskMappingKey user task_id
        ({ y with
            last_synced_at := t2n
            last_modified_local := t2n
            sync_status := "synced"
            version_hash := versionHashTask t } : Mapping)
        = taskMappingKey user task_id y := fun y => rfl
    dsimp only
    rw [filter_updateFirst_length _ _ _ hkey]
    rw [hs1]
    dsimp only
    rw [List.filter_append, hnomap]
    simp [taskMappingKey]
  · rw [hsync2]
    dsimp only
    exact updateFirst_length _ _ _
  · rw [hs1]
    simp

end Cal

namespace Cal

/-- Witness for C5 on the fresh-sync state. -/
theorem C5_sync_task_idempotent_witness :
    (sync_task_to_calendar "t1" "u" 1 freshSyncState).1.success = true
    ∧ (sync_task_to_calendar "t1" "u" 2
        (sync_task_to_calendar "t1" "u" 1 freshSyncState).2).1.event_id
        = some 0
    ∧ ((sync_task_to_calendar "t1" "u" 2
        (sync_task_to_calendar "t1" "u" 1 freshSyncState).2).2.mappings.filter
          (taskMappingKey "u" "t1")).length = 1 := by
  have H := C5_sync_task_idempotent "t1" "u" 1 2 freshSyncState t1Task _ rfl
    rfl rfl rfl rfl
  exact ⟨H.1, H.2.2.2.1, H.2.2.2.2.1⟩

end Cal
